import Mathlib

/-!
Shallow embedding of `services/zimmer-13-api-coordinator/src/services/ai_router.py`
(`FreeAIRouter`): provider registry, daily quota tracking with lazy reset,
per-provider request adapters, and the ordered fallback routers
`route_text` / `route_vision`, together with the auxiliary operations
`get_quota_status` and `get_recommended_provider`.

Modelling conventions:
- Python `datetime` values are reduced to their calendar date, a `Nat`
  (the source only ever compares `.date()` values and overwrites the field).
- Python `int` counters are `Int` (so quota arithmetic, including the
  `remaining` subtraction, is not truncated).
- Python truthiness of `Optional[str]` / `Optional[int]` values
  (`if not provider.api_key`, `if provider.rate_limit`) is made explicit via
  `pyStrTruthy` / `pyIntTruthy`: `None`, `""` and `0` are falsy.
- The HTTP transport is an oracle `Net : HttpRequest → HttpOutcome`; an
  outcome is either a raised transport error or a response with a status code
  and an already-parsed JSON body.
- A Python exception escaping a function is an `Except.error` (inside the
  adapter `try` blocks) or an `Option.none` result (past a `try` boundary);
  route results are `some` exactly when no unhandled exception escapes.
-/

namespace AIRouter

/-- Provider capability tag, `provider_type: Literal["text", "vision", "both"]`. -/
inductive PType where
  | text
  | vision
  | both
deriving DecidableEq, Repr

/-- Embedding of the `ProviderConfig` dataclass.  `last_reset` is the stored
calendar date (day number); `requests_today` and `rate_limit` are integers. -/
structure ProviderConfig where
  name : String
  endpoint : String
  model : Option String
  api_key : Option String
  provider_type : PType
  priority : Int
  rate_limit : Option Int := none
  requests_today : Int := 0
  last_reset : Nat
deriving DecidableEq, Repr

/-- The router's mutable provider table `self.providers: Dict[str, ProviderConfig]`,
as an association list keyed by the provider key. -/
abbrev Providers := List (String × ProviderConfig)

/-- Python truthiness of an `Optional[str]`: `None` and `""` are falsy. -/
def pyStrTruthy : Option String → Bool
  | none => false
  | some s => !(s == "")

/-- Python truthiness of an `Optional[int]`: `None` and `0` are falsy. -/
def pyIntTruthy : Option Int → Bool
  | none => false
  | some n => !(n == 0)

/-- Rendering of an `Optional[str]` inside an f-string: Python prints `None`. -/
def pyStr : Option String → String
  | none => "None"
  | some s => s

/-- Key-preserving update of every entry of the provider table; the shape of
every state mutation in the source (`for provider in self.providers.values()`
loops and single-entry field assignments). -/
def mapVals (g : String → ProviderConfig → ProviderConfig) (ps : Providers) : Providers :=
  ps.map fun kv => (kv.1, g kv.1 kv.2)

/-- Embedding of `FreeAIRouter._check_daily_reset`: for every provider, if the
current date is later than the stored `last_reset` date, zero
`requests_today` and stamp `last_reset` with the current date. -/
def check_daily_reset (today : Nat) (ps : Providers) : Providers :=
  mapVals (fun _ p =>
    if today > p.last_reset then { p with requests_today := 0, last_reset := today }
    else p) ps

/-- Embedding of `FreeAIRouter._can_use_provider`: false when the provider is
missing from the table, its `api_key` is falsy, or its `rate_limit` is truthy
and `requests_today` has reached it. -/
def can_use_provider (ps : Providers) (name : String) : Bool :=
  match ps.lookup name with
  | none => false
  | some provider =>
    if pyStrTruthy provider.api_key = false then false
    else if pyIntTruthy provider.rate_limit = true
            ∧ provider.requests_today ≥ provider.rate_limit.getD 0 then false
    else true

/-- The provider registry built in `FreeAIRouter.__init__`, parameterised by
the process environment (`os.getenv`) and the construction date. -/
def initProviders (env : String → Option String) (today : Nat) : Providers :=
  [ ("opencode_zen",
     { name := "OpenCode Zen (grok-code)"
       endpoint := "https://api.opencode.ai/v1/chat/completions"
       model := some "grok-code"
       api_key := env "OPENCODE_ZEN_API_KEY"
       provider_type := .text
       priority := 1
       rate_limit := none
       last_reset := today }),
    ("gemini",
     { name := "Google Gemini 2.0 Flash"
       endpoint := "https://generativelanguage.googleapis.com/v1beta/models/gemini-2.0-flash:generateContent"
       model := none
       api_key := env "GEMINI_API_KEY"
       provider_type := .vision
       priority := 1
       rate_limit := some 1500
       last_reset := today }),
    ("mistral",
     { name := "Mistral AI"
       endpoint := "https://api.mistral.ai/v1/chat/completions"
       model := some "mistral-small-latest"
       api_key := env "MISTRAL_API_KEY"
       provider_type := .text
       priority := 2
       rate_limit := none
       last_reset := today }),
    ("groq",
     { name := "Groq (llama-3.2-90b-vision)"
       endpoint := "https://api.groq.com/openai/v1/chat/completions"
       model := some "llama-3.2-90b-vision-preview"
       api_key := env "GROQ_API_KEY"
       provider_type := .both
       priority := 2
       rate_limit := some 14400
       last_reset := today }),
    ("huggingface",
     { name := "HuggingFace Inference"
       endpoint := "https://api-inference.huggingface.co/models/mistralai/Mistral-7B-Instruct-v0.2"
       model := none
       api_key := env "HUGGINGFACE_API_KEY"
       provider_type := .text
       priority := 3
       rate_limit := none
       last_reset := today }) ]

/-- A JSON value.  `jdec` keeps a decimal literal from a source payload as its
literal text (the decimal constants are inert request parameters). -/
inductive Json where
  | jnull
  | jbool (b : Bool)
  | jnum (n : Int)
  | jdec (lit : String)
  | jstr (s : String)
  | jarr (items : List Json)
  | jobj (fields : List (String × Json))

/-- Object field access, `data["k"]`; `none` models the raised `KeyError` /
`TypeError` on anything that is not an object with that field. -/
def Json.getKey : Json → String → Option Json
  | .jobj fields, k => fields.lookup k
  | _, _ => none

/-- Array index access, `data[i]`; `none` models the raised `IndexError` /
`TypeError` on anything that is not an array with that index. -/
def Json.getIdx : Json → Nat → Option Json
  | .jarr items, i => items.get? i
  | _, _ => none

/-- One outbound POST: URL, headers and JSON body. -/
structure HttpRequest where
  url : String
  headers : List (String × String)
  body : Json

/-- What the transport produces for one request: a raised transport error, or
a response with a status code and parsed JSON body. -/
inductive HttpOutcome where
  | err (msg : String)
  | resp (status : Nat) (body : Json)

/-- The transport oracle standing for `httpx.AsyncClient.post`. -/
abbrev Net := HttpRequest → HttpOutcome

/-- The result dictionaries produced by the adapters and routers:
`success` is always present; the remaining keys are present (`some`) exactly
when the corresponding Python dict carries them (a `provider` value of
Python `None` is `some`-with-`none` collapsed to `none` here). -/
structure CallResult where
  success : Bool
  response : Option Json := none
  error : Option String := none
  provider : Option String := none
  model : Option String := none

/-- The `httpx` success range checked by `response.raise_for_status()`. -/
def is_status_ok (status : Nat) : Bool := 200 ≤ status && status ≤ 299

/-- Chat-style message list: optional leading system message (Python
`if system:` — truthiness), then the user message. -/
def chatMessages (system : Option String) (prompt : String) : Json :=
  Json.jarr
    ((if pyStrTruthy system then
        [Json.jobj [("role", Json.jstr "system"), ("content", Json.jstr (pyStr system))]]
      else []) ++
     [Json.jobj [("role", Json.jstr "user"), ("content", Json.jstr prompt)]])

/-- JSON encoding of an `Optional[str]` field (`None` ⇒ JSON null). -/
def jsonOfOptStr : Option String → Json
  | none => Json.jnull
  | some s => Json.jstr s

/-- Extraction path `data["choices"][0]["message"]["content"]` shared by the
chat-completions-style adapters; `none` models the raised lookup error. -/
def chat_extract (body : Json) : Option Json :=
  (((body.getKey "choices").bind (fun j => j.getIdx 0)).bind
    (fun j => j.getKey "message")).bind (fun j => j.getKey "content")

/-- Extraction in `_call_huggingface`:
`data[0]["generated_text"] if isinstance(data, list) else data.get("generated_text", "")`.
For an object body a missing field defaults to `""` (no error); for an array
body the lookups are strict; any other body raises (`none`). -/
def hf_extract : Json → Option Json
  | .jarr items => (items.get? 0).bind (fun j => j.getKey "generated_text")
  | .jobj fields => some ((fields.lookup "generated_text").getD (Json.jstr ""))
  | _ => none

/-- Extraction path `data["candidates"][0]["content"]["parts"][0]["text"]`
in `_call_gemini_vision`. -/
def gemini_extract (body : Json) : Option Json :=
  (((((body.getKey "candidates").bind (fun j => j.getIdx 0)).bind
      (fun j => j.getKey "content")).bind (fun j => j.getKey "parts")).bind
    (fun j => j.getIdx 0)).bind (fun j => j.getKey "text")

/-- Request built by `_call_opencode_zen`. -/
def opencode_zen_request (provider : ProviderConfig) (prompt : String) (system : Option String) : HttpRequest :=
  { url := provider.endpoint
    headers := [("Authorization", "Bearer " ++ pyStr provider.api_key),
                ("Content-Type", "application/json")]
    body := Json.jobj [("model", jsonOfOptStr provider.model),
                       ("messages", chatMessages system prompt),
                       ("temperature", Json.jdec "0.7"),
                       ("max_tokens", Json.jnum 2000)] }

/-- Embedding of `_call_opencode_zen` (inside the dispatcher's `try`):
`Except.error` is a raised exception (transport error, `raise_for_status`,
or response-field lookup). -/
def call_opencode_zen (net : Net) (provider : ProviderConfig) (prompt : String)
    (system : Option String) : Except String CallResult :=
  match net (opencode_zen_request provider prompt system) with
  | .err e => .error e
  | .resp status body =>
    if is_status_ok status = false then .error ("HTTP status " ++ toString status)
    else
      match chat_extract body with
      | none => .error "missing field in response"
      | some content =>
        .ok { success := true, response := some content,
              provider := some "opencode_zen", model := provider.model }

/-- Request built by `_call_mistral`. -/
def mistral_request (provider : ProviderConfig) (prompt : String) (system : Option String) : HttpRequest :=
  { url := provider.endpoint
    headers := [("Authorization", "Bearer " ++ pyStr provider.api_key)]
    body := Json.jobj [("model", jsonOfOptStr provider.model),
                       ("messages", chatMessages system prompt),
                       ("temperature", Json.jdec "0.7"),
                       ("max_tokens", Json.jnum 1000)] }

/-- Embedding of `_call_mistral`. -/
def call_mistral (net : Net) (provider : ProviderConfig) (prompt : String)
    (system : Option String) : Except String CallResult :=
  match net (mistral_request provider prompt system) with
  | .err e => .error e
  | .resp status body =>
    if is_status_ok status = false then .error ("HTTP status " ++ toString status)
    else
      match chat_extract body with
      | none => .error "missing field in response"
      | some content =>
        .ok { success := true, response := some content,
              provider := some "mistral", model := provider.model }

/-- Request built by `_call_groq_text` (hard-coded text model). -/
def groq_text_request (provider : ProviderConfig) (prompt : String) (system : Option String) : HttpRequest :=
  { url := provider.endpoint
    headers := [("Authorization", "Bearer " ++ pyStr provider.api_key)]
    body := Json.jobj [("model", Json.jstr "llama-3.1-70b-versatile"),
                       ("messages", chatMessages system prompt),
                       ("temperature", Json.jdec "0.7"),
                       ("max_tokens", Json.jnum 1000)] }

/-- Embedding of `_call_groq_text`. -/
def call_groq_text (net : Net) (provider : ProviderConfig) (prompt : String)
    (system : Option String) : Except String CallResult :=
  match net (groq_text_request provider prompt system) with
  | .err e => .error e
  | .resp status body =>
    if is_status_ok status = false then .error ("HTTP status " ++ toString status)
    else
      match chat_extract body with
      | none => .error "missing field in response"
      | some content =>
        .ok { success := true, response := some content,
              provider := some "groq", model := some "llama-3.1-70b-versatile" }

/-- The flattened prompt built by `_call_huggingface` (truthiness of `system`). -/
def huggingface_full_prompt (system : Option String) (prompt : String) : String :=
  if pyStrTruthy system then pyStr system ++ "\n\nUser: " ++ prompt ++ "\n\nAssistant:"
  else "User: " ++ prompt ++ "\n\nAssistant:"

/-- Request built by `_call_huggingface`. -/
def huggingface_request (provider : ProviderConfig) (prompt : String) (system : Option String) : HttpRequest :=
  { url := provider.endpoint
    headers := [("Authorization", "Bearer " ++ pyStr provider.api_key)]
    body := Json.jobj [("inputs", Json.jstr (huggingface_full_prompt system prompt)),
                       ("parameters",
                        Json.jobj [("max_new_tokens", Json.jnum 500),
                                   ("temperature", Json.jdec "0.7"),
                                   ("return_full_text", Json.jbool false)])] }

/-- Embedding of `_call_huggingface`. -/
def call_huggingface (net : Net) (provider : ProviderConfig) (prompt : String)
    (system : Option String) : Except String CallResult :=
  match net (huggingface_request provider prompt system) with
  | .err e => .error e
  | .resp status body =>
    if is_status_ok status = false then .error ("HTTP status " ++ toString status)
    else
      match hf_extract body with
      | none => .error "unexpected response shape"
      | some content =>
        .ok { success := true, response := some content,
              provider := some "huggingface", model := some "Mistral-7B-Instruct" }

/-- Request built by `_call_gemini_vision` (key passed as a query parameter,
inline base64 image part, optional leading system text part). -/
def gemini_vision_request (provider : ProviderConfig) (image_base64 prompt : String)
    (system : Option String) : HttpRequest :=
  { url := provider.endpoint ++ "?key=" ++ pyStr provider.api_key
    headers := []
    body := Json.jobj
      [("contents",
        Json.jarr [Json.jobj [("parts",
          Json.jarr
            ((if pyStrTruthy system then [Json.jobj [("text", Json.jstr (pyStr system))]]
              else []) ++
             [Json.jobj [("text", Json.jstr prompt)],
              Json.jobj [("inline_data",
                Json.jobj [("mime_type", Json.jstr "image/png"),
                           ("data", Json.jstr image_base64)])]]))]]),
       ("generationConfig",
        Json.jobj [("temperature", Json.jdec "0.3"),
                   ("maxOutputTokens", Json.jnum 2000)])] }

/-- Embedding of `_call_gemini_vision`. -/
def call_gemini_vision (net : Net) (provider : ProviderConfig) (image_base64 prompt : String)
    (system : Option String) : Except String CallResult :=
  match net (gemini_vision_request provider image_base64 prompt system) with
  | .err e => .error e
  | .resp status body =>
    if is_status_ok status = false then .error ("HTTP status " ++ toString status)
    else
      match gemini_extract body with
      | none => .error "missing field in response"
      | some content =>
        .ok { success := true, response := some content,
              provider := some "gemini", model := some "gemini-2.0-flash" }

/-- Request built by `_call_groq_vision` (multimodal user message with a
data-URI image). -/
def groq_vision_request (provider : ProviderConfig) (image_base64 prompt : String)
    (system : Option String) : HttpRequest :=
  { url := provider.endpoint
    headers := [("Authorization", "Bearer " ++ pyStr provider.api_key)]
    body := Json.jobj
      [("model", jsonOfOptStr provider.model),
       ("messages",
        Json.jarr
          ((if pyStrTruthy system then
              [Json.jobj [("role", Json.jstr "system"), ("content", Json.jstr (pyStr system))]]
            else []) ++
           [Json.jobj
             [("role", Json.jstr "user"),
              ("content",
               Json.jarr
                 [Json.jobj [("type", Json.jstr "text"), ("text", Json.jstr prompt)],
                  Json.jobj [("type", Json.jstr "image_url"),
                             ("image_url",
                              Json.jobj [("url",
                                Json.jstr ("data:image/png;base64," ++ image_base64))])]])]])),
       ("temperature", Json.jdec "0.3"),
       ("max_tokens", Json.jnum 2000)] }

/-- Embedding of `_call_groq_vision`. -/
def call_groq_vision (net : Net) (provider : ProviderConfig) (image_base64 prompt : String)
    (system : Option String) : Except String CallResult :=
  match net (groq_vision_request provider image_base64 prompt system) with
  | .err e => .error e
  | .resp status body =>
    if is_status_ok status = false then .error ("HTTP status " ++ toString status)
    else
      match chat_extract body with
      | none => .error "missing field in response"
      | some content =>
        .ok { success := true, response := some content,
              provider := some "groq", model := provider.model }

/-- The `if name == ... / elif ...` chain inside `_call_text_provider`'s `try`
block; the final `.ok` is the fall-through "Unknown provider" return that the
Python function reaches when no branch matches. -/
def dispatch_text (net : Net) (provider : ProviderConfig) (name prompt : String)
    (system : Option String) : Except String CallResult :=
  if name = "opencode_zen" then call_opencode_zen net provider prompt system
  else if name = "mistral" then call_mistral net provider prompt system
  else if name = "groq" then call_groq_text net provider prompt system
  else if name = "huggingface" then call_huggingface net provider prompt system
  else .ok { success := false, error := some "Unknown provider", provider := some name }

/-- Embedding of `_call_text_provider`.  The initial `self.providers[name]`
lookup sits outside the `try`, so a missing key is an unhandled exception
(`none`); every raised exception inside the `try` is converted to a failure
dict carrying the provider name and the exception text. -/
def call_text_provider (net : Net) (ps : Providers) (name prompt : String)
    (system : Option String) : Option CallResult :=
  match ps.lookup name with
  | none => none
  | some provider =>
    match dispatch_text net provider name prompt system with
    | .ok r => some r
    | .error e => some { success := false, error := some e, provider := some name }

/-- The `if name == ... / elif ...` chain inside `_call_vision_provider`'s
`try` block, with its fall-through "Unknown vision provider" return. -/
def dispatch_vision (net : Net) (provider : ProviderConfig) (name image_base64 prompt : String)
    (system : Option String) : Except String CallResult :=
  if name = "gemini" then call_gemini_vision net provider image_base64 prompt system
  else if name = "groq" then call_groq_vision net provider image_base64 prompt system
  else .ok { success := false, error := some "Unknown vision provider", provider := some name }

/-- Embedding of `_call_vision_provider` (same exception-to-failure shape as
`call_text_provider`). -/
def call_vision_provider (net : Net) (ps : Providers) (name image_base64 prompt : String)
    (system : Option String) : Option CallResult :=
  match ps.lookup name with
  | none => none
  | some provider =>
    match dispatch_vision net provider name image_base64 prompt system with
    | .ok r => some r
    | .error e => some { success := false, error := some e, provider := some name }

/-- The fixed text candidate order in `route_text` / `get_recommended_provider`. -/
def text_providers : List String := ["opencode_zen", "mistral", "groq", "huggingface"]

/-- The fixed vision candidate order in `route_vision` / `get_recommended_provider`. -/
def vision_providers : List String := ["gemini", "groq"]

/-- The single-entry mutation `self.providers[name].requests_today += 1`. -/
def bump (ps : Providers) (name : String) : Providers :=
  mapVals (fun k p => if k = name then { p with requests_today := p.requests_today + 1 } else p) ps

/-- The candidate sweep of `route_text`: skip inadmissible candidates, invoke
the adapter of the first admissible one, record a use and stop on success,
fall through on failure, and report the aggregate failure when the order is
exhausted.  `none` is an unhandled exception escaping the sweep. -/
def route_text_go (net : Net) (prompt : String) (system : Option String) :
    List String → Providers → Option (CallResult × Providers)
  | [], ps =>
    some ({ success := false, error := some "All text providers failed or exhausted",
            provider := none }, ps)
  | name :: rest, ps =>
    if can_use_provider ps name = false then route_text_go net prompt system rest ps
    else
      match call_text_provider net ps name prompt system with
      | none => none
      | some result =>
        if result.success then some (result, bump ps name)
        else route_text_go net prompt system rest ps

/-- Embedding of `FreeAIRouter.route_text`: lazy daily reset, then the sweep
over the fixed text candidate order. -/
def route_text (net : Net) (today : Nat) (ps : Providers) (prompt : String)
    (system : Option String) : Option (CallResult × Providers) :=
  route_text_go net prompt system text_providers (check_daily_reset today ps)

/-- The candidate sweep of `route_vision`: additionally skips candidates that
are missing or whose capability excludes vision, before the admissibility
check. -/
def route_vision_go (net : Net) (image_base64 prompt : String) (system : Option String) :
    List String → Providers → Option (CallResult × Providers)
  | [], ps =>
    some ({ success := false, error := some "All vision providers failed or exhausted",
            provider := none }, ps)
  | name :: rest, ps =>
    match ps.lookup name with
    | none => route_vision_go net image_base64 prompt system rest ps
    | some provider =>
      if ¬ (provider.provider_type = .vision ∨ provider.provider_type = .both) then
        route_vision_go net image_base64 prompt system rest ps
      else if can_use_provider ps name = false then
        route_vision_go net image_base64 prompt system rest ps
      else
        match call_vision_provider net ps name image_base64 prompt system with
        | none => none
        | some result =>
          if result.success then some (result, bump ps name)
          else route_vision_go net image_base64 prompt system rest ps

/-- Embedding of `FreeAIRouter.route_vision`. -/
def route_vision (net : Net) (today : Nat) (ps : Providers) (image_base64 prompt : String)
    (system : Option String) : Option (CallResult × Providers) :=
  route_vision_go net image_base64 prompt system vision_providers (check_daily_reset today ps)

/-- One row of the dictionary returned by `get_quota_status`. -/
structure QuotaEntry where
  name : String
  configured : Bool
  ptype : PType
  requests_today : Int
  rate_limit : Option Int
  remaining : Option Int
  available : Bool
deriving DecidableEq, Repr

/-- The per-provider row built inside `get_quota_status`'s dict comprehension;
`remaining` is `none` when the Python code reports the `"unlimited"` sentinel
(falsy `rate_limit`). -/
def quota_entry (ps : Providers) (key : String) (p : ProviderConfig) : QuotaEntry :=
  { name := p.name
    configured := pyStrTruthy p.api_key
    ptype := p.provider_type
    requests_today := p.requests_today
    rate_limit := p.rate_limit
    remaining := if pyIntTruthy p.rate_limit then some (p.rate_limit.getD 0 - p.requests_today)
                 else none
    available := can_use_provider ps key }

/-- Embedding of `FreeAIRouter.get_quota_status`: performs the lazy daily
reset, then reports one row per provider; returns the rows together with the
router state after the call. -/
def get_quota_status (today : Nat) (ps : Providers) :
    List (String × QuotaEntry) × Providers :=
  let ps := check_daily_reset today ps
  (ps.map (fun kv => (kv.1, quota_entry ps kv.1 kv.2)), ps)

/-- The `task_type: Literal["text", "vision"]` argument of
`get_recommended_provider`. -/
inductive TaskType where
  | text
  | vision
deriving DecidableEq, Repr

/-- The candidate scan of `get_recommended_provider`: first admissible
candidate in order, with the extra vision-capability filter; never invokes an
adapter.  The inner `none` on a failed lookup is unreachable because
admissibility implies presence. -/
def get_recommended_go (ps : Providers) (task : TaskType) : List String → Option String
  | [] => none
  | name :: rest =>
    if can_use_provider ps name = true then
      match ps.lookup name with
      | none => none
      | some provider =>
        if task = .vision ∧ ¬ (provider.provider_type = .vision ∨ provider.provider_type = .both) then
          get_recommended_go ps task rest
        else some name
    else get_recommended_go ps task rest

/-- Embedding of `FreeAIRouter.get_recommended_provider`: lazy daily reset,
then the order scan; returns the recommendation together with the router
state after the call. -/
def get_recommended_provider (today : Nat) (ps : Providers) (task : TaskType) :
    Option String × Providers :=
  let ps := check_daily_reset today ps
  (get_recommended_go ps task (match task with | .text => text_providers | .vision => vision_providers), ps)

/-- Replacing every provider's advisory `priority` field (used by no
operation) according to an arbitrary reassignment. -/
def setPriorities (f : String → Int) (ps : Providers) : Providers :=
  mapVals (fun k p => { p with priority := f k }) ps

/-- One sequential API call against the router, for stating state invariants
over arbitrary interleavings of the public operations. -/
inductive Op where
  | text (net : Net) (today : Nat) (prompt : String) (system : Option String)
  | vision (net : Net) (today : Nat) (image_base64 prompt : String) (system : Option String)
  | status (today : Nat)
  | recommend (today : Nat) (task : TaskType)

/-- The provider-table state after one operation (an unhandled exception,
which never happens, would leave the state unchanged). -/
def applyOp (ps : Providers) : Op → Providers
  | .text net today prompt system =>
    match route_text net today ps prompt system with
    | some (_, ps') => ps'
    | none => ps
  | .vision net today image_base64 prompt system =>
    match route_vision net today ps image_base64 prompt system with
    | some (_, ps') => ps'
    | none => ps
  | .status today => (get_quota_status today ps).2
  | .recommend today task => (get_recommended_provider today ps task).2

/-- The provider-table state after a sequence of operations. -/
def runOps (ps : Providers) : List Op → Providers
  | [] => ps
  | op :: rest => runOps (applyOp ps op) rest

/-- The daily-quota invariant: every provider with a positive set limit has
consumed at most that limit. -/
def quotaOK (ps : Providers) : Prop :=
  ∀ k p, ps.lookup k = some p → ∀ L, p.rate_limit = some L → 0 < L → p.requests_today ≤ L

/-- Executable form of `quotaOK` over the entries of the table. -/
def quotaOKb (ps : Providers) : Bool :=
  ps.all fun kv =>
    match kv.2.rate_limit with
    | some L => !(0 < L) || (kv.2.requests_today ≤ L)
    | none => true

/-- Instrumented variant of `route_text_go` that also returns the list of
candidates whose adapter was actually invoked, in invocation order.  Its
first component coincides with `route_text_go` (proved below); the trace is
the verification device for "no later candidate is invoked". -/
def route_text_go_invoked (net : Net) (prompt : String) (system : Option String) :
    List String → Providers → Option (CallResult × Providers) × List String
  | [], ps =>
    (some ({ success := false, error := some "All text providers failed or exhausted",
             provider := none }, ps), [])
  | name :: rest, ps =>
    if can_use_provider ps name = false then
      route_text_go_invoked net prompt system rest ps
    else
      match call_text_provider net ps name prompt system with
      | none => (none, [name])
      | some result =>
        if result.success then (some (result, bump ps name), [name])
        else
          let t := route_text_go_invoked net prompt system rest ps
          (t.1, name :: t.2)

/-- Instrumented variant of `route_vision_go` with the invocation trace. -/
def route_vision_go_invoked (net : Net) (image_base64 prompt : String) (system : Option String) :
    List String → Providers → Option (CallResult × Providers) × List String
  | [], ps =>
    (some ({ success := false, error := some "All vision providers failed or exhausted",
             provider := none }, ps), [])
  | name :: rest, ps =>
    match ps.lookup name with
    | none => route_vision_go_invoked net image_base64 prompt system rest ps
    | some provider =>
      if ¬ (provider.provider_type = .vision ∨ provider.provider_type = .both) then
        route_vision_go_invoked net image_base64 prompt system rest ps
      else if can_use_provider ps name = false then
        route_vision_go_invoked net image_base64 prompt system rest ps
      else
        match call_vision_provider net ps name image_base64 prompt system with
        | none => (none, [name])
        | some result =>
          if result.success then (some (result, bump ps name), [name])
          else
            let t := route_vision_go_invoked net image_base64 prompt system rest ps
            (t.1, name :: t.2)

/-- The invocation trace of a full `route_text` call. -/
def route_text_invoked (net : Net) (today : Nat) (ps : Providers) (prompt : String)
    (system : Option String) : List String :=
  (route_text_go_invoked net prompt system text_providers (check_daily_reset today ps)).2

/-- The invocation trace of a full `route_vision` call. -/
def route_vision_invoked (net : Net) (today : Nat) (ps : Providers) (image_base64 prompt : String)
    (system : Option String) : List String :=
  (route_vision_go_invoked net image_base64 prompt system vision_providers (check_daily_reset today ps)).2


/-- A faulted transport outcome with respect to an extraction path: a raised
transport error, a non-2xx status, or a body on which the extraction fails. -/
def faulty (o : HttpOutcome) (extract : Json → Option Json) : Prop :=
  match o with
  | .err _ => True
  | .resp status body => is_status_ok status = false ∨ extract body = none

/-- Concrete transport for exercising first-success routing: every request
gets a 2xx body that satisfies both the chat and the Gemini extraction. -/
def c1Net : Net := fun _ =>
  HttpOutcome.resp 200 (Json.jobj
    [("choices", Json.jarr [Json.jobj [("message", Json.jobj [("content", Json.jstr "hi")])]]),
     ("candidates", Json.jarr [Json.jobj [("content", Json.jobj [("parts",
        Json.jarr [Json.jobj [("text", Json.jstr "see")]])])]])])

/-- Registry with every credential configured, built on date 0. -/
def c1Providers : Providers := initProviders (fun _ => some "key") 0

/-- The result `route_text` produces under `c1Net` via `opencode_zen`. -/
def c1TextResult : CallResult :=
  { success := true, response := some (Json.jstr "hi"),
    provider := some "opencode_zen", model := some "grok-code" }

/-- The result `route_vision` produces under `c1Net` via `gemini`. -/
def c1VisionResult : CallResult :=
  { success := true, response := some (Json.jstr "see"),
    provider := some "gemini", model := some "gemini-2.0-flash" }

/-- A one-provider state (only `mistral`) for exercising the quota frame. -/
def c2State : Providers :=
  [("mistral",
    { name := "Mistral AI", endpoint := "m", model := some "mistral-small-latest",
      api_key := some "k", provider_type := .text, priority := 2, rate_limit := none,
      requests_today := 0, last_reset := 0 })]

/-- Transport returning a well-formed chat completion to every request. -/
def c2Net : Net := fun _ =>
  HttpOutcome.resp 200 (Json.jobj
    [("choices", Json.jarr [Json.jobj [("message", Json.jobj [("content", Json.jstr "ok")])]])])

/-- The result `route_text` produces under `c2Net` on `c2State` via `mistral`. -/
def c2Result : CallResult :=
  { success := true, response := some (Json.jstr "ok"),
    provider := some "mistral", model := some "mistral-small-latest" }

/-! ## Lookup lemmas for the key-preserving state mutations -/

/-- Looking up a key in a key-preserving map of the table applies the entry
function to the looked-up value. -/
theorem lookup_map_withKey {β : Type} (g : String → ProviderConfig → β) :
    ∀ (ps : Providers) (k : String),
      (ps.map fun kv => (kv.1, g kv.1 kv.2)).lookup k = (ps.lookup k).map (g k) := by
  intro ps k
  induction ps with
  | nil => rfl
  | cons kv rest ih =>
    simp only [List.map_cons, List.lookup]
    cases h : k == kv.1
    · exact ih
    · simp [eq_of_beq h]

theorem check_daily_reset_lookup (today : Nat) (ps : Providers) (k : String) :
    (check_daily_reset today ps).lookup k
      = (ps.lookup k).map (fun p =>
          if today > p.last_reset then { p with requests_today := 0, last_reset := today } else p) :=
  lookup_map_withKey
    ((fun _ p => if today > p.last_reset then { p with requests_today := 0, last_reset := today } else p) :
      String → ProviderConfig → ProviderConfig)
    ps k

theorem bump_lookup (ps : Providers) (n k : String) :
    (bump ps n).lookup k
      = (ps.lookup k).map (fun p =>
          if k = n then { p with requests_today := p.requests_today + 1 } else p) :=
  lookup_map_withKey
    ((fun k p => if k = n then { p with requests_today := p.requests_today + 1 } else p) :
      String → ProviderConfig → ProviderConfig) ps k

theorem setPriorities_lookup (f : String → Int) (ps : Providers) (k : String) :
    (setPriorities f ps).lookup k = (ps.lookup k).map (fun p => { p with priority := f k }) :=
  lookup_map_withKey
    ((fun k p => { p with priority := f k }) : String → ProviderConfig → ProviderConfig) ps k

/-- An admissible provider is present in the table. -/
theorem can_use_provider_lookup {ps : Providers} {k : String}
    (h : can_use_provider ps k = true) : ∃ p, ps.lookup k = some p := by
  unfold can_use_provider at h
  cases hl : ps.lookup k with
  | none => rw [hl] at h; exact absurd h (by simp)
  | some p => exact ⟨p, rfl⟩

/-! ## Totality of the adapter boundary and the sweeps -/

/-- A text adapter call on a present provider never escapes with an unhandled
exception. -/
theorem call_text_provider_isSome {net : Net} {ps : Providers} {name prompt : String}
    {system : Option String} {p : ProviderConfig} (h : ps.lookup name = some p) :
    ∃ r, call_text_provider net ps name prompt system = some r := by
  rcases hd : dispatch_text net p name prompt system with e | r
  · exact ⟨{ success := false, error := some e, provider := some name },
      by simp [call_text_provider, h, hd]⟩
  · exact ⟨r, by simp [call_text_provider, h, hd]⟩

/-- A vision adapter call on a present provider never escapes with an
unhandled exception. -/
theorem call_vision_provider_isSome {net : Net} {ps : Providers} {name image_base64 prompt : String}
    {system : Option String} {p : ProviderConfig} (h : ps.lookup name = some p) :
    ∃ r, call_vision_provider net ps name image_base64 prompt system = some r := by
  rcases hd : dispatch_vision net p name image_base64 prompt system with e | r
  · exact ⟨{ success := false, error := some e, provider := some name },
      by simp [call_vision_provider, h, hd]⟩
  · exact ⟨r, by simp [call_vision_provider, h, hd]⟩

theorem route_text_go_isSome (net : Net) (prompt : String) (system : Option String) :
    ∀ (l : List String) (ps : Providers), (route_text_go net prompt system l ps).isSome = true := by
  intro l
  induction l with
  | nil => intro ps; rfl
  | cons name rest ih =>
    intro ps
    unfold route_text_go
    cases hc : can_use_provider ps name with
    | false => exact ih ps
    | true =>
      obtain ⟨p, hp⟩ := can_use_provider_lookup hc
      obtain ⟨r, hr⟩ := @call_text_provider_isSome net ps name prompt system p hp
      rw [hr]
      obtain ⟨rs, rr, re, rp, rm⟩ := r
      cases rs
      · exact ih ps
      · rfl

theorem route_vision_go_isSome (net : Net) (image_base64 prompt : String) (system : Option String) :
    ∀ (l : List String) (ps : Providers),
      (route_vision_go net image_base64 prompt system l ps).isSome = true := by
  intro l
  induction l with
  | nil => intro ps; rfl
  | cons name rest ih =>
    intro ps
    unfold route_vision_go
    cases hl : ps.lookup name with
    | none => exact ih ps
    | some provider =>
      dsimp only
      by_cases htype : ¬ (provider.provider_type = .vision ∨ provider.provider_type = .both)
      · rw [if_pos htype]; exact ih ps
      · rw [if_neg htype]
        cases hc : can_use_provider ps name with
        | false => exact ih ps
        | true =>
          obtain ⟨r, hr⟩ := @call_vision_provider_isSome net ps name image_base64 prompt system provider hl
          rw [hr]
          obtain ⟨rs, rr, re, rp, rm⟩ := r
          cases rs
          · exact ih ps
          · rfl

/-- The instrumented text sweep computes the same outcome as the plain one. -/
theorem route_text_go_invoked_fst (net : Net) (prompt : String) (system : Option String) :
    ∀ (l : List String) (ps : Providers),
      (route_text_go_invoked net prompt system l ps).1 = route_text_go net prompt system l ps := by
  intro l
  induction l with
  | nil => intro ps; rfl
  | cons name rest ih =>
    intro ps
    unfold route_text_go_invoked route_text_go
    cases hc : can_use_provider ps name with
    | false => exact ih ps
    | true =>
      cases hcall : call_text_provider net ps name prompt system with
      | none => rfl
      | some result =>
        obtain ⟨rs, rr, re, rp, rm⟩ := result
        cases rs
        · exact ih ps
        · rfl

/-- The instrumented vision sweep computes the same outcome as the plain one. -/
theorem route_vision_go_invoked_fst (net : Net) (image_base64 prompt : String) (system : Option String) :
    ∀ (l : List String) (ps : Providers),
      (route_vision_go_invoked net image_base64 prompt system l ps).1
        = route_vision_go net image_base64 prompt system l ps := by
  intro l
  induction l with
  | nil => intro ps; rfl
  | cons name rest ih =>
    intro ps
    unfold route_vision_go_invoked route_vision_go
    cases hl : ps.lookup name with
    | none => exact ih ps
    | some provider =>
      dsimp only
      by_cases htype : ¬ (provider.provider_type = .vision ∨ provider.provider_type = .both)
      · rw [if_pos htype, if_pos htype]; exact ih ps
      · rw [if_neg htype, if_neg htype]
        cases hc : can_use_provider ps name with
        | false => exact ih ps
        | true =>
          cases hcall : call_vision_provider net ps name image_base64 prompt system with
          | none => rfl
          | some result =>
            obtain ⟨rs, rr, re, rp, rm⟩ := result
            cases rs
            · exact ih ps
            · rfl

/-! ## Daily-reset lemmas -/

/-- When no stored date is stale, the lazy reset leaves the table unchanged. -/
theorem check_daily_reset_noop (today : Nat) :
    ∀ ps : Providers, (∀ kv ∈ ps, ¬ today > kv.2.last_reset) → check_daily_reset today ps = ps := by
  intro ps
  induction ps with
  | nil => intro _; rfl
  | cons kv rest ih =>
    intro h
    have h1 : ¬ today > kv.2.last_reset := h kv (List.mem_cons_self _ _)
    have h2 := ih (fun x hx => h x (List.mem_cons_of_mem _ hx))
    unfold check_daily_reset mapVals
    unfold check_daily_reset mapVals at h2
    simp only [List.map_cons]
    rw [if_neg h1, h2, Prod.mk.eta]

/-- After the lazy reset, no stored date is stale. -/
theorem check_daily_reset_post (today : Nat) (ps : Providers) :
    ∀ kv ∈ check_daily_reset today ps, ¬ today > kv.2.last_reset := by
  intro kv hkv
  unfold check_daily_reset mapVals at hkv
  rw [List.mem_map] at hkv
  obtain ⟨ab, hab, rfl⟩ := hkv
  dsimp only
  by_cases hres : today > ab.2.last_reset
  · rw [if_pos hres]
    dsimp only
    omega
  · rw [if_neg hres]
    exact hres

/-- Within one date the lazy reset is idempotent: a second reset call is a
no-op, so the counter is never zeroed twice for the same date transition. -/
theorem check_daily_reset_idem (today : Nat) (ps : Providers) :
    check_daily_reset today (check_daily_reset today ps) = check_daily_reset today ps :=
  check_daily_reset_noop today _ (check_daily_reset_post today ps)

/-! ## Success shapes of the adapters -/

theorem call_opencode_zen_ok {net : Net} {p : ProviderConfig} {prompt : String}
    {system : Option String} {r : CallResult}
    (ho : call_opencode_zen net p prompt system = .ok r) :
    r.success = true ∧ r.provider = some "opencode_zen" ∧ r.model = p.model := by
  unfold call_opencode_zen at ho
  split at ho
  · exact Except.noConfusion ho
  · split at ho
    · exact Except.noConfusion ho
    · split at ho
      · exact Except.noConfusion ho
      · injection ho with h
        subst h
        exact ⟨rfl, rfl, rfl⟩

theorem call_mistral_ok {net : Net} {p : ProviderConfig} {prompt : String}
    {system : Option String} {r : CallResult}
    (ho : call_mistral net p prompt system = .ok r) :
    r.success = true ∧ r.provider = some "mistral" ∧ r.model = p.model := by
  unfold call_mistral at ho
  split at ho
  · exact Except.noConfusion ho
  · split at ho
    · exact Except.noConfusion ho
    · split at ho
      · exact Except.noConfusion ho
      · injection ho with h
        subst h
        exact ⟨rfl, rfl, rfl⟩

theorem call_groq_text_ok {net : Net} {p : ProviderConfig} {prompt : String}
    {system : Option String} {r : CallResult}
    (ho : call_groq_text net p prompt system = .ok r) :
    r.success = true ∧ r.provider = some "groq" ∧ r.model = some "llama-3.1-70b-versatile" := by
  unfold call_groq_text at ho
  split at ho
  · exact Except.noConfusion ho
  · split at ho
    · exact Except.noConfusion ho
    · split at ho
      · exact Except.noConfusion ho
      · injection ho with h
        subst h
        exact ⟨rfl, rfl, rfl⟩

theorem call_huggingface_ok {net : Net} {p : ProviderConfig} {prompt : String}
    {system : Option String} {r : CallResult}
    (ho : call_huggingface net p prompt system = .ok r) :
    r.success = true ∧ r.provider = some "huggingface" ∧ r.model = some "Mistral-7B-Instruct" := by
  unfold call_huggingface at ho
  split at ho
  · exact Except.noConfusion ho
  · split at ho
    · exact Except.noConfusion ho
    · split at ho
      · exact Except.noConfusion ho
      · injection ho with h
        subst h
        exact ⟨rfl, rfl, rfl⟩

theorem call_gemini_vision_ok {net : Net} {p : ProviderConfig} {image_base64 prompt : String}
    {system : Option String} {r : CallResult}
    (ho : call_gemini_vision net p image_base64 prompt system = .ok r) :
    r.success = true ∧ r.provider = some "gemini" ∧ r.model = some "gemini-2.0-flash" := by
  unfold call_gemini_vision at ho
  split at ho
  · exact Except.noConfusion ho
  · split at ho
    · exact Except.noConfusion ho
    · split at ho
      · exact Except.noConfusion ho
      · injection ho with h
        subst h
        exact ⟨rfl, rfl, rfl⟩

theorem call_groq_vision_ok {net : Net} {p : ProviderConfig} {image_base64 prompt : String}
    {system : Option String} {r : CallResult}
    (ho : call_groq_vision net p image_base64 prompt system = .ok r) :
    r.success = true ∧ r.provider = some "groq" ∧ r.model = p.model := by
  unfold call_groq_vision at ho
  split at ho
  · exact Except.noConfusion ho
  · split at ho
    · exact Except.noConfusion ho
    · split at ho
      · exact Except.noConfusion ho
      · injection ho with h
        subst h
        exact ⟨rfl, rfl, rfl⟩

/-- A successful result out of the text dispatcher carries the dispatched
provider name. -/
theorem dispatch_text_ok {net : Net} {p : ProviderConfig} {name prompt : String}
    {system : Option String} {r : CallResult}
    (ho : dispatch_text net p name prompt system = .ok r) (hs : r.success = true) :
    r.provider = some name := by
  unfold dispatch_text at ho
  by_cases h1 : name = "opencode_zen"
  · subst h1
    rw [if_pos rfl] at ho
    exact (call_opencode_zen_ok ho).2.1
  · rw [if_neg h1] at ho
    by_cases h2 : name = "mistral"
    · subst h2
      rw [if_pos rfl] at ho
      exact (call_mistral_ok ho).2.1
    · rw [if_neg h2] at ho
      by_cases h3 : name = "groq"
      · subst h3
        rw [if_pos rfl] at ho
        exact (call_groq_text_ok ho).2.1
      · rw [if_neg h3] at ho
        by_cases h4 : name = "huggingface"
        · subst h4
          rw [if_pos rfl] at ho
          exact (call_huggingface_ok ho).2.1
        · rw [if_neg h4] at ho
          injection ho with h
          subst h
          exact Bool.noConfusion hs

/-- A successful result out of the vision dispatcher carries the dispatched
provider name. -/
theorem dispatch_vision_ok {net : Net} {p : ProviderConfig} {name image_base64 prompt : String}
    {system : Option String} {r : CallResult}
    (ho : dispatch_vision net p name image_base64 prompt system = .ok r) (hs : r.success = true) :
    r.provider = some name := by
  unfold dispatch_vision at ho
  by_cases h1 : name = "gemini"
  · subst h1
    rw [if_pos rfl] at ho
    exact (call_gemini_vision_ok ho).2.1
  · rw [if_neg h1] at ho
    by_cases h2 : name = "groq"
    · subst h2
      rw [if_pos rfl] at ho
      exact (call_groq_vision_ok ho).2.1
    · rw [if_neg h2] at ho
      injection ho with h
      subst h
      exact Bool.noConfusion hs

/-- A successful result of `_call_text_provider` carries the provider name it
was invoked for. -/
theorem call_text_provider_success {net : Net} {ps : Providers} {name prompt : String}
    {system : Option String} {r : CallResult}
    (hc : call_text_provider net ps name prompt system = some r) (hs : r.success = true) :
    r.provider = some name := by
  unfold call_text_provider at hc
  cases hl : ps.lookup name with
  | none => rw [hl] at hc; exact Option.noConfusion hc
  | some p =>
    rw [hl] at hc
    dsimp only at hc
    cases hd : dispatch_text net p name prompt system with
    | ok r0 =>
      rw [hd] at hc
      injection hc with h
      subst h
      exact dispatch_text_ok hd hs
    | error e =>
      rw [hd] at hc
      injection hc with h
      subst h
      exact Bool.noConfusion hs

/-- A successful result of `_call_vision_provider` carries the provider name
it was invoked for. -/
theorem call_vision_provider_success {net : Net} {ps : Providers} {name image_base64 prompt : String}
    {system : Option String} {r : CallResult}
    (hc : call_vision_provider net ps name image_base64 prompt system = some r)
    (hs : r.success = true) : r.provider = some name := by
  unfold call_vision_provider at hc
  cases hl : ps.lookup name with
  | none => rw [hl] at hc; exact Option.noConfusion hc
  | some p =>
    rw [hl] at hc
    dsimp only at hc
    cases hd : dispatch_vision net p name image_base64 prompt system with
    | ok r0 =>
      rw [hd] at hc
      injection hc with h
      subst h
      exact dispatch_vision_ok hd hs
    | error e =>
      rw [hd] at hc
      injection hc with h
      subst h
      exact Bool.noConfusion hs


/-! ## Sweep lemmas -/

/-- The instrumented text sweep on `pre ++ c :: post`: if every candidate in
`pre` is inadmissible or fails and `c` is admissible and succeeds, the sweep
returns `c`'s result with `c`'s use recorded, and the invocation trace is the
admissible part of `pre` followed by `c` — nothing in `post` is invoked. -/
theorem route_text_go_first_success (net : Net) (prompt : String) (system : Option String)
    (ps : Providers) (r : CallResult) :
    ∀ (pre : List String) (c : String) (post : List String),
      (∀ n ∈ pre, can_use_provider ps n = false ∨
        ∃ rf, call_text_provider net ps n prompt system = some rf ∧ rf.success = false) →
      can_use_provider ps c = true →
      call_text_provider net ps c prompt system = some r →
      r.success = true →
      route_text_go_invoked net prompt system (pre ++ c :: post) ps
        = (some (r, bump ps c), (pre.filter (fun n => can_use_provider ps n)) ++ [c]) := by
  intro pre
  induction pre with
  | nil =>
    intro c post _ hadm hcall hsucc
    rw [List.nil_append]
    unfold route_text_go_invoked
    rw [if_neg (by rw [hadm]; simp), hcall]
    dsimp only
    rw [if_pos hsucc]
    simp
  | cons a pre ih =>
    intro c post hpre hadm hcall hsucc
    have ha := hpre a (List.mem_cons_self _ _)
    have hpre2 : ∀ n ∈ pre, can_use_provider ps n = false ∨
        ∃ rf, call_text_provider net ps n prompt system = some rf ∧ rf.success = false :=
      fun n hn => hpre n (List.mem_cons_of_mem _ hn)
    have ihx := ih c post hpre2 hadm hcall hsucc
    rw [List.cons_append]
    unfold route_text_go_invoked
    by_cases hca : can_use_provider ps a = false
    · rw [if_pos hca, ihx]
      simp [List.filter_cons, hca]
    · rw [if_neg hca]
      rcases ha with ha | ⟨rf, hrf, hrfs⟩
      · exact absurd ha hca
      · rw [hrf]
        dsimp only
        rw [if_neg (by rw [hrfs]; simp), ihx]
        have hca2 : can_use_provider ps a = true := by
          cases h : can_use_provider ps a
          · exact absurd h hca
          · rfl
        simp [List.filter_cons, hca2]

/-- The vision analogue of `route_text_go_first_success`, with the extra
skip cases of the vision sweep (missing provider, capability mismatch). -/
theorem route_vision_go_first_success (net : Net) (image_base64 prompt : String)
    (system : Option String) (ps : Providers) (r : CallResult) :
    ∀ (pre : List String) (c : String) (post : List String),
      (∀ n ∈ pre, ps.lookup n = none ∨
        (∃ p, ps.lookup n = some p ∧ ¬ (p.provider_type = .vision ∨ p.provider_type = .both)) ∨
        can_use_provider ps n = false ∨
        ∃ rf, call_vision_provider net ps n image_base64 prompt system = some rf ∧
          rf.success = false) →
      (∃ p, ps.lookup c = some p ∧ (p.provider_type = .vision ∨ p.provider_type = .both)) →
      can_use_provider ps c = true →
      call_vision_provider net ps c image_base64 prompt system = some r →
      r.success = true →
      route_vision_go_invoked net image_base64 prompt system (pre ++ c :: post) ps
        = (some (r, bump ps c),
           (pre.filter (fun n =>
             match ps.lookup n with
             | none => false
             | some p => decide (p.provider_type = .vision ∨ p.provider_type = .both)
                 && can_use_provider ps n)) ++ [c]) := by
  intro pre
  induction pre with
  | nil =>
    intro c post _ hcap hadm hcall hsucc
    obtain ⟨p, hp, hcap⟩ := hcap
    rw [List.nil_append]
    unfold route_vision_go_invoked
    rw [hp]
    dsimp only
    rw [if_neg (by simp [hcap]), if_neg (by rw [hadm]; simp), hcall]
    dsimp only
    rw [if_pos hsucc]
    simp
  | cons a pre ih =>
    intro c post hpre hcap hadm hcall hsucc
    have ha := hpre a (List.mem_cons_self _ _)
    have hpre2 : ∀ n ∈ pre, ps.lookup n = none ∨
        (∃ p, ps.lookup n = some p ∧ ¬ (p.provider_type = .vision ∨ p.provider_type = .both)) ∨
        can_use_provider ps n = false ∨
        ∃ rf, call_vision_provider net ps n image_base64 prompt system = some rf ∧
          rf.success = false :=
      fun n hn => hpre n (List.mem_cons_of_mem _ hn)
    have ihx := ih c post hpre2 hcap hadm hcall hsucc
    rw [List.cons_append]
    unfold route_vision_go_invoked
    cases hla : ps.lookup a with
    | none =>
      rw [ihx]
      simp [List.filter_cons, hla]
    | some pa =>
      dsimp only
      by_cases htype : ¬ (pa.provider_type = .vision ∨ pa.provider_type = .both)
      · rw [if_pos htype, ihx]
        simp only [List.filter_cons, hla]
        rw [if_neg (by simp [htype])]
      · rw [if_neg htype]
        by_cases hca : can_use_provider ps a = false
        · rw [if_pos hca, ihx]
          simp only [List.filter_cons, hla]
          rw [if_neg (by simp [hca])]
        · rw [if_neg hca]
          rcases ha with ha | ⟨p, hp, hcapa⟩ | ha | ⟨rf, hrf, hrfs⟩
          · rw [ha] at hla; exact Option.noConfusion hla
          · rw [hp] at hla
            injection hla with h
            subst h
            exact absurd hcapa htype
          · exact absurd ha hca
          · rw [hrf]
            dsimp only
            rw [if_neg (by rw [hrfs]; simp), ihx]
            have hca2 : can_use_provider ps a = true := by
              cases h : can_use_provider ps a
              · exact absurd h hca
              · rfl
            simp only [List.filter_cons, hla]
            rw [if_pos (by simp [hca2]; tauto)]
            rw [List.cons_append]

/-- If every candidate in the text order is inadmissible or fails, the text
sweep returns the aggregate failure with the state untouched. -/
theorem route_text_go_exhausted (net : Net) (prompt : String) (system : Option String) :
    ∀ (l : List String) (ps : Providers),
      (∀ n ∈ l, can_use_provider ps n = false ∨
        ∃ rf, call_text_provider net ps n prompt system = some rf ∧ rf.success = false) →
      route_text_go net prompt system l ps
        = some ({ success := false, error := some "All text providers failed or exhausted",
                  provider := none }, ps) := by
  intro l
  induction l with
  | nil => intro ps _; rfl
  | cons a rest ih =>
    intro ps h
    have ha := h a (List.mem_cons_self _ _)
    have h2 : ∀ n ∈ rest, can_use_provider ps n = false ∨
        ∃ rf, call_text_provider net ps n prompt system = some rf ∧ rf.success = false :=
      fun n hn => h n (List.mem_cons_of_mem _ hn)
    unfold route_text_go
    by_cases hca : can_use_provider ps a = false
    · rw [if_pos hca]
      exact ih ps h2
    · rw [if_neg hca]
      rcases ha with ha | ⟨rf, hrf, hrfs⟩
      · exact absurd ha hca
      · rw [hrf]
        dsimp only
        rw [if_neg (by rw [hrfs]; simp)]
        exact ih ps h2

/-- If every candidate in the vision order is missing, capability-mismatched,
inadmissible or fails, the vision sweep returns the aggregate failure with
the state untouched. -/
theorem route_vision_go_exhausted (net : Net) (image_base64 prompt : String) (system : Option String) :
    ∀ (l : List String) (ps : Providers),
      (∀ n ∈ l, ps.lookup n = none ∨
        (∃ p, ps.lookup n = some p ∧ ¬ (p.provider_type = .vision ∨ p.provider_type = .both)) ∨
        can_use_provider ps n = false ∨
        ∃ rf, call_vision_provider net ps n image_base64 prompt system = some rf ∧
          rf.success = false) →
      route_vision_go net image_base64 prompt system l ps
        = some ({ success := false, error := some "All vision providers failed or exhausted",
                  provider := none }, ps) := by
  intro l
  induction l with
  | nil => intro ps _; rfl
  | cons a rest ih =>
    intro ps h
    have ha := h a (List.mem_cons_self _ _)
    have h2 : ∀ n ∈ rest, ps.lookup n = none ∨
        (∃ p, ps.lookup n = some p ∧ ¬ (p.provider_type = .vision ∨ p.provider_type = .both)) ∨
        can_use_provider ps n = false ∨
        ∃ rf, call_vision_provider net ps n image_base64 prompt system = some rf ∧
          rf.success = false :=
      fun n hn => h n (List.mem_cons_of_mem _ hn)
    unfold route_vision_go
    cases hla : ps.lookup a with
    | none => exact ih ps h2
    | some pa =>
      dsimp only
      by_cases htype : ¬ (pa.provider_type = .vision ∨ pa.provider_type = .both)
      · rw [if_pos htype]
        exact ih ps h2
      · rw [if_neg htype]
        by_cases hca : can_use_provider ps a = false
        · rw [if_pos hca]
          exact ih ps h2
        · rw [if_neg hca]
          rcases ha with ha | ⟨p, hp, hcapa⟩ | ha | ⟨rf, hrf, hrfs⟩
          · rw [ha] at hla; exact Option.noConfusion hla
          · rw [hp] at hla
            injection hla with hx
            subst hx
            exact absurd hcapa htype
          · exact absurd ha hca
          · rw [hrf]
            dsimp only
            rw [if_neg (by rw [hrfs]; simp)]
            exact ih ps h2

/-- Everything a completed text sweep can have done: either some candidate in
the order was admissible, its adapter produced the successful result, and
exactly its use was recorded; or the aggregate failure was returned and the
state is untouched. -/
theorem route_text_go_cases (net : Net) (prompt : String) (system : Option String) :
    ∀ (l : List String) (ps : Providers) (r : CallResult) (ps2 : Providers),
      route_text_go net prompt system l ps = some (r, ps2) →
      (r.success = true ∧ ∃ n, n ∈ l ∧ can_use_provider ps n = true ∧
        call_text_provider net ps n prompt system = some r ∧ ps2 = bump ps n)
      ∨ (r = { success := false, error := some "All text providers failed or exhausted",
               provider := none } ∧ ps2 = ps) := by
  intro l
  induction l with
  | nil =>
    intro ps r ps2 h
    unfold route_text_go at h
    injection h with h1
    rw [Prod.mk.injEq] at h1
    exact Or.inr ⟨h1.1.symm, h1.2.symm⟩
  | cons a rest ih =>
    intro ps r ps2 h
    unfold route_text_go at h
    by_cases hca : can_use_provider ps a = false
    · rw [if_pos hca] at h
      rcases ih ps r ps2 h with ⟨hs, n, hn, hrest⟩ | hr
      · exact Or.inl ⟨hs, n, List.mem_cons_of_mem _ hn, hrest⟩
      · exact Or.inr hr
    · rw [if_neg hca] at h
      have hca2 : can_use_provider ps a = true := by
        cases hx : can_use_provider ps a
        · exact absurd hx hca
        · rfl
      cases hcall : call_text_provider net ps a prompt system with
      | none => rw [hcall] at h; exact Option.noConfusion h
      | some result =>
        rw [hcall] at h
        dsimp only at h
        by_cases hs : result.success = true
        · rw [if_pos hs] at h
          injection h with h1
          rw [Prod.mk.injEq] at h1
          obtain ⟨hr1, hr2⟩ := h1
          subst hr1
          exact Or.inl ⟨hs, a, List.mem_cons_self _ _, hca2, hcall, hr2.symm⟩
        · rw [if_neg hs] at h
          rcases ih ps r ps2 h with ⟨hs2, n, hn, hrest⟩ | hr
          · exact Or.inl ⟨hs2, n, List.mem_cons_of_mem _ hn, hrest⟩
          · exact Or.inr hr

/-- Everything a completed vision sweep can have done. -/
theorem route_vision_go_cases (net : Net) (image_base64 prompt : String) (system : Option String) :
    ∀ (l : List String) (ps : Providers) (r : CallResult) (ps2 : Providers),
      route_vision_go net image_base64 prompt system l ps = some (r, ps2) →
      (r.success = true ∧ ∃ n, n ∈ l ∧ can_use_provider ps n = true ∧
        call_vision_provider net ps n image_base64 prompt system = some r ∧ ps2 = bump ps n)
      ∨ (r = { success := false, error := some "All vision providers failed or exhausted",
               provider := none } ∧ ps2 = ps) := by
  intro l
  induction l with
  | nil =>
    intro ps r ps2 h
    unfold route_vision_go at h
    injection h with h1
    rw [Prod.mk.injEq] at h1
    exact Or.inr ⟨h1.1.symm, h1.2.symm⟩
  | cons a rest ih =>
    intro ps r ps2 h
    unfold route_vision_go at h
    cases hla : ps.lookup a with
    | none =>
      rw [hla] at h
      dsimp only at h
      rcases ih ps r ps2 h with ⟨hs, n, hn, hrest⟩ | hr
      · exact Or.inl ⟨hs, n, List.mem_cons_of_mem _ hn, hrest⟩
      · exact Or.inr hr
    | some pa =>
      rw [hla] at h
      dsimp only at h
      by_cases htype : ¬ (pa.provider_type = .vision ∨ pa.provider_type = .both)
      · rw [if_pos htype] at h
        rcases ih ps r ps2 h with ⟨hs, n, hn, hrest⟩ | hr
        · exact Or.inl ⟨hs, n, List.mem_cons_of_mem _ hn, hrest⟩
        · exact Or.inr hr
      · rw [if_neg htype] at h
        by_cases hca : can_use_provider ps a = false
        · rw [if_pos hca] at h
          rcases ih ps r ps2 h with ⟨hs, n, hn, hrest⟩ | hr
          · exact Or.inl ⟨hs, n, List.mem_cons_of_mem _ hn, hrest⟩
          · exact Or.inr hr
        · rw [if_neg hca] at h
          have hca2 : can_use_provider ps a = true := by
            cases hx : can_use_provider ps a
            · exact absurd hx hca
            · rfl
          cases hcall : call_vision_provider net ps a image_base64 prompt system with
          | none => rw [hcall] at h; exact Option.noConfusion h
          | some result =>
            rw [hcall] at h
            dsimp only at h
            by_cases hs : result.success = true
            · rw [if_pos hs] at h
              injection h with h1
              rw [Prod.mk.injEq] at h1
              obtain ⟨hr1, hr2⟩ := h1
              subst hr1
              exact Or.inl ⟨hs, a, List.mem_cons_self _ _, hca2, hcall, hr2.symm⟩
            · rw [if_neg hs] at h
              rcases ih ps r ps2 h with ⟨hs2, n, hn, hrest⟩ | hr
              · exact Or.inl ⟨hs2, n, List.mem_cons_of_mem _ hn, hrest⟩
              · exact Or.inr hr

/-! ## Priority-erasure lemmas: no operation reads the `priority` field -/

theorem list_map_congr {α β : Type} {l : List α} {F G : α → β}
    (h : ∀ a ∈ l, F a = G a) : l.map F = l.map G := by
  induction l with
  | nil => rfl
  | cons a rest ih =>
    simp only [List.map_cons]
    rw [h a (List.mem_cons_self _ _), ih (fun x hx => h x (List.mem_cons_of_mem _ hx))]

theorem can_use_provider_setPriorities (f : String → Int) (ps : Providers) (k : String) :
    can_use_provider (setPriorities f ps) k = can_use_provider ps k := by
  unfold can_use_provider
  rw [setPriorities_lookup]
  cases ps.lookup k with
  | none => rfl
  | some p => rfl

theorem call_text_provider_setPriorities (f : String → Int) (net : Net) (ps : Providers)
    (name prompt : String) (system : Option String) :
    call_text_provider net (setPriorities f ps) name prompt system
      = call_text_provider net ps name prompt system := by
  unfold call_text_provider
  rw [setPriorities_lookup]
  cases ps.lookup name with
  | none => rfl
  | some p => rfl

theorem call_vision_provider_setPriorities (f : String → Int) (net : Net) (ps : Providers)
    (name image_base64 prompt : String) (system : Option String) :
    call_vision_provider net (setPriorities f ps) name image_base64 prompt system
      = call_vision_provider net ps name image_base64 prompt system := by
  unfold call_vision_provider
  rw [setPriorities_lookup]
  cases ps.lookup name with
  | none => rfl
  | some p => rfl

theorem check_daily_reset_setPriorities (today : Nat) (f : String → Int) (ps : Providers) :
    check_daily_reset today (setPriorities f ps) = setPriorities f (check_daily_reset today ps) := by
  unfold check_daily_reset setPriorities mapVals
  rw [List.map_map, List.map_map]
  apply list_map_congr
  intro kv _
  dsimp only [Function.comp]
  by_cases h : today > kv.2.last_reset
  · rw [if_pos h, if_pos h]
  · rw [if_neg h, if_neg h]

theorem bump_setPriorities (f : String → Int) (ps : Providers) (name : String) :
    bump (setPriorities f ps) name = setPriorities f (bump ps name) := by
  unfold bump setPriorities mapVals
  rw [List.map_map, List.map_map]
  apply list_map_congr
  intro kv _
  dsimp only [Function.comp]
  by_cases h : kv.1 = name
  · rw [if_pos h, if_pos h]
  · rw [if_neg h, if_neg h]

theorem route_text_go_setPriorities (f : String → Int) (net : Net) (prompt : String)
    (system : Option String) :
    ∀ (l : List String) (ps : Providers),
      route_text_go net prompt system l (setPriorities f ps)
        = (route_text_go net prompt system l ps).map (fun x => (x.1, setPriorities f x.2)) := by
  intro l
  induction l with
  | nil => intro ps; rfl
  | cons a rest ih =>
    intro ps
    unfold route_text_go
    rw [can_use_provider_setPriorities]
    by_cases hca : can_use_provider ps a = false
    · rw [if_pos hca, if_pos hca]
      exact ih ps
    · rw [if_neg hca, if_neg hca, call_text_provider_setPriorities]
      cases call_text_provider net ps a prompt system with
      | none => rfl
      | some result =>
        obtain ⟨rs, rr, re, rp, rm⟩ := result
        cases rs
        · exact ih ps
        · dsimp only
          rw [if_pos rfl, if_pos rfl, bump_setPriorities]
          rfl

theorem route_vision_go_setPriorities (f : String → Int) (net : Net) (image_base64 prompt : String)
    (system : Option String) :
    ∀ (l : List String) (ps : Providers),
      route_vision_go net image_base64 prompt system l (setPriorities f ps)
        = (route_vision_go net image_base64 prompt system l ps).map
            (fun x => (x.1, setPriorities f x.2)) := by
  intro l
  induction l with
  | nil => intro ps; rfl
  | cons a rest ih =>
    intro ps
    unfold route_vision_go
    rw [setPriorities_lookup]
    cases ps.lookup a with
    | none => exact ih ps
    | some pa =>
      simp only [Option.map_some']
      dsimp only
      by_cases htype : ¬ (pa.provider_type = .vision ∨ pa.provider_type = .both)
      · rw [if_pos htype, if_pos htype]
        exact ih ps
      · rw [if_neg htype, if_neg htype, can_use_provider_setPriorities]
        by_cases hca : can_use_provider ps a = false
        · rw [if_pos hca, if_pos hca]
          exact ih ps
        · rw [if_neg hca, if_neg hca, call_vision_provider_setPriorities]
          cases call_vision_provider net ps a image_base64 prompt system with
          | none => rfl
          | some result =>
            obtain ⟨rs, rr, re, rp, rm⟩ := result
            cases rs
            · exact ih ps
            · dsimp only
              rw [if_pos rfl, if_pos rfl, bump_setPriorities]
              rfl

theorem get_recommended_go_setPriorities (f : String → Int) (ps : Providers) (task : TaskType) :
    ∀ l : List String,
      get_recommended_go (setPriorities f ps) task l = get_recommended_go ps task l := by
  intro l
  induction l with
  | nil => rfl
  | cons a rest ih =>
    unfold get_recommended_go
    rw [can_use_provider_setPriorities]
    by_cases hca : can_use_provider ps a = true
    · rw [if_pos hca, if_pos hca, setPriorities_lookup]
      cases ps.lookup a with
      | none => rfl
      | some p =>
        simp only [Option.map_some']
        dsimp only
        by_cases ht : task = .vision ∧ ¬ (p.provider_type = .vision ∨ p.provider_type = .both)
        · rw [if_pos ht, if_pos ht]
          exact ih
        · rw [if_neg ht, if_neg ht]
    · rw [if_neg hca, if_neg hca]
      exact ih

theorem quota_entry_setPriorities (f : String → Int) (qs : Providers) (k : String)
    (p : ProviderConfig) :
    quota_entry (setPriorities f qs) k p = quota_entry qs k p := by
  unfold quota_entry
  rw [can_use_provider_setPriorities]

theorem quota_rows_setPriorities (f : String → Int) (qs : Providers) :
    (setPriorities f qs).map (fun kv => (kv.1, quota_entry (setPriorities f qs) kv.1 kv.2))
      = qs.map (fun kv => (kv.1, quota_entry qs kv.1 kv.2)) := by
  have h1 : (setPriorities f qs).map (fun kv => (kv.1, quota_entry (setPriorities f qs) kv.1 kv.2))
      = (setPriorities f qs).map (fun kv => (kv.1, quota_entry qs kv.1 kv.2)) :=
    list_map_congr (fun kv _ => by rw [quota_entry_setPriorities])
  rw [h1]
  show ((qs.map fun kv => (kv.1, { kv.2 with priority := f kv.1 })).map
    (fun kv => (kv.1, quota_entry qs kv.1 kv.2))) = _
  rw [List.map_map]
  apply list_map_congr
  intro kv _
  rfl

/-! ## Quota-invariant lemmas -/

theorem lookup_mem {ps : Providers} {k : String} {p : ProviderConfig}
    (h : ps.lookup k = some p) : (k, p) ∈ ps := by
  induction ps with
  | nil => exact Option.noConfusion h
  | cons kv rest ih =>
    unfold List.lookup at h
    cases hb : k == kv.1
    · rw [hb] at h
      exact List.mem_cons_of_mem _ (ih h)
    · rw [hb] at h
      have hk : k = kv.1 := eq_of_beq hb
      subst hk
      injection h with h2
      subst h2
      rw [Prod.mk.eta]
      exact List.mem_cons_self _ _

theorem quotaOK_of_quotaOKb {ps : Providers} (h : quotaOKb ps = true) : quotaOK ps := by
  intro k p hp L hL hpos
  have hall := List.all_eq_true.mp h _ (lookup_mem hp)
  dsimp only at hall
  rw [hL] at hall
  simp at hall
  omega

theorem quotaOK_check_daily_reset (today : Nat) {ps : Providers} (h : quotaOK ps) :
    quotaOK (check_daily_reset today ps) := by
  intro k p hp L hL hpos
  rw [check_daily_reset_lookup] at hp
  cases hl : ps.lookup k with
  | none => rw [hl] at hp; exact Option.noConfusion hp
  | some q =>
    rw [hl] at hp
    simp only [Option.map_some'] at hp
    injection hp with h2
    by_cases hq : today > q.last_reset
    · rw [if_pos hq] at h2
      subst h2
      dsimp only at hL ⊢
      omega
    · rw [if_neg hq] at h2
      subst h2
      exact h k q hl L hL hpos

theorem quotaOK_bump {ps : Providers} {n : String} (h : quotaOK ps)
    (hcan : can_use_provider ps n = true) : quotaOK (bump ps n) := by
  intro k p hp L hL hpos
  rw [bump_lookup] at hp
  cases hl : ps.lookup k with
  | none => rw [hl] at hp; exact Option.noConfusion hp
  | some q =>
    rw [hl] at hp
    simp only [Option.map_some'] at hp
    injection hp with h2
    by_cases hk : k = n
    · rw [if_pos hk] at h2
      subst h2
      subst hk
      dsimp only at hL ⊢
      unfold can_use_provider at hcan
      rw [hl] at hcan
      dsimp only at hcan
      by_cases hkey : pyStrTruthy q.api_key = false
      · rw [if_pos hkey] at hcan
        exact Bool.noConfusion hcan
      · rw [if_neg hkey] at hcan
        by_cases hlim : pyIntTruthy q.rate_limit = true
            ∧ q.requests_today ≥ q.rate_limit.getD 0
        · rw [if_pos hlim] at hcan
          exact Bool.noConfusion hcan
        · have htr : pyIntTruthy (some L) = true := by
            simp [pyIntTruthy]
            omega
          rw [hL] at hlim
          simp [htr, Option.getD_some] at hlim
          omega
    · rw [if_neg hk] at h2
      subst h2
      exact h k q hl L hL hpos

theorem quotaOK_route_text {net : Net} {today : Nat} {ps : Providers} {prompt : String}
    {system : Option String} {r : CallResult} {ps2 : Providers}
    (h : quotaOK ps) (hr : route_text net today ps prompt system = some (r, ps2)) :
    quotaOK ps2 := by
  have hcd := quotaOK_check_daily_reset today h
  rcases route_text_go_cases net prompt system text_providers (check_daily_reset today ps)
      r ps2 hr with ⟨_, n, _, hcan, _, hb⟩ | ⟨_, hps⟩
  · subst hb
    exact quotaOK_bump hcd hcan
  · subst hps
    exact hcd

theorem quotaOK_route_vision {net : Net} {today : Nat} {ps : Providers}
    {image_base64 prompt : String} {system : Option String} {r : CallResult} {ps2 : Providers}
    (h : quotaOK ps) (hr : route_vision net today ps image_base64 prompt system = some (r, ps2)) :
    quotaOK ps2 := by
  have hcd := quotaOK_check_daily_reset today h
  rcases route_vision_go_cases net image_base64 prompt system vision_providers
      (check_daily_reset today ps) r ps2 hr with ⟨_, n, _, hcan, _, hb⟩ | ⟨_, hps⟩
  · subst hb
    exact quotaOK_bump hcd hcan
  · subst hps
    exact hcd

theorem quotaOK_applyOp {ps : Providers} (h : quotaOK ps) (op : Op) : quotaOK (applyOp ps op) := by
  cases op with
  | text net today prompt system =>
    have he : applyOp ps (Op.text net today prompt system)
        = match route_text net today ps prompt system with
          | some (_, ps2) => ps2
          | none => ps := rfl
    rw [he]
    cases hr : route_text net today ps prompt system with
    | none => exact h
    | some x =>
      obtain ⟨r, ps2⟩ := x
      exact quotaOK_route_text h hr
  | vision net today image_base64 prompt system =>
    have he : applyOp ps (Op.vision net today image_base64 prompt system)
        = match route_vision net today ps image_base64 prompt system with
          | some (_, ps2) => ps2
          | none => ps := rfl
    rw [he]
    cases hr : route_vision net today ps image_base64 prompt system with
    | none => exact h
    | some x =>
      obtain ⟨r, ps2⟩ := x
      exact quotaOK_route_vision h hr
  | status today => exact quotaOK_check_daily_reset today h
  | recommend today task => exact quotaOK_check_daily_reset today h

theorem quotaOK_runOps : ∀ (ops : List Op) (ps : Providers), quotaOK ps → quotaOK (runOps ps ops) := by
  intro ops
  induction ops with
  | nil => intro ps h; exact h
  | cons op rest ih => intro ps h; exact ih _ (quotaOK_applyOp h op)

/-- The rows of `get_quota_status`, looked up by provider key. -/
theorem get_quota_status_rows (today : Nat) (ps : Providers) (k : String) :
    ((get_quota_status today ps).1).lookup k
      = ((check_daily_reset today ps).lookup k).map
          (fun p => quota_entry (check_daily_reset today ps) k p) := by
  unfold get_quota_status
  exact lookup_map_withKey
    ((fun k p => quota_entry (check_daily_reset today ps) k p) :
      String → ProviderConfig → QuotaEntry) (check_daily_reset today ps) k

/-! ## Claim theorems -/

/-- C7: for every prompt, optional system instruction, image payload, provider
state and any transport behaviour, `route_text` and `route_vision` resolve to
a result value carrying a success flag — no unhandled fault ever escapes the
router boundary (`none` would model an escaped exception). -/
theorem C7_router_never_raises (net : Net) (today : Nat) (ps : Providers)
    (prompt image_base64 : String) (system : Option String) :
    (route_text net today ps prompt system).isSome = true
    ∧ (route_vision net today ps image_base64 prompt system).isSome = true :=
  ⟨route_text_go_isSome net prompt system text_providers (check_daily_reset today ps),
   route_vision_go_isSome net image_base64 prompt system vision_providers
     (check_daily_reset today ps)⟩

/-- C4: the lazy reset zeroes the counter and stamps the last-reset date for
exactly the providers whose stored date precedes the current date; on a state
with no stale date it is a no-op (so within one date a second call never
resets again); after it runs no date is stale, hence it is idempotent — a
reset happens exactly once per date transition and is never skipped. -/
theorem C4_lazy_reset_once_per_date (today : Nat) (ps : Providers) (k : String) :
    ((check_daily_reset today ps).lookup k
      = (ps.lookup k).map (fun p =>
          if p.last_reset < today then { p with requests_today := 0, last_reset := today }
          else p))
    ∧ ((∀ kv ∈ ps, ¬ kv.2.last_reset < today) → check_daily_reset today ps = ps)
    ∧ (∀ kv ∈ check_daily_reset today ps, ¬ kv.2.last_reset < today)
    ∧ check_daily_reset today (check_daily_reset today ps) = check_daily_reset today ps :=
  ⟨check_daily_reset_lookup today ps k,
   check_daily_reset_noop today ps,
   check_daily_reset_post today ps,
   check_daily_reset_idem today ps⟩

/-- Witness for C4 at a concrete state: a provider whose stored date is the
current date is left untouched by the reset. -/
theorem C4_lazy_reset_once_per_date_witness :
    check_daily_reset 5
      [("gemini",
        { name := "Google Gemini 2.0 Flash", endpoint := "g", model := none, api_key := some "k",
          provider_type := .vision, priority := 1, rate_limit := some 1500,
          requests_today := 3, last_reset := 5 })]
      = [("gemini",
        { name := "Google Gemini 2.0 Flash", endpoint := "g", model := none, api_key := some "k",
          provider_type := .vision, priority := 1, rate_limit := some 1500,
          requests_today := 3, last_reset := 5 })] :=
  (C4_lazy_reset_once_per_date 5 _ "gemini").2.1 (by decide)

/-- C8 counterexample: `get_quota_status` does mutate state.  On a state whose
stored last-reset date precedes the current date, the call zeroes the consumed
counter and stamps the date (the lazy daily reset), so "every provider's
requests-consumed-today counter and last-reset date are unchanged" is false at
this input. -/
theorem C8_counterexample :
    (get_quota_status 1
      [("gemini",
        { name := "Google Gemini 2.0 Flash", endpoint := "g", model := none, api_key := some "k",
          provider_type := .vision, priority := 1, rate_limit := some 1500,
          requests_today := 5, last_reset := 0 })]).2
      ≠ [("gemini",
        { name := "Google Gemini 2.0 Flash", endpoint := "g", model := none, api_key := some "k",
          provider_type := .vision, priority := 1, rate_limit := some 1500,
          requests_today := 5, last_reset := 0 })] := by decide

/-- C8 (amended): `get_quota_status` and `get_recommended_provider` mutate no
state beyond the shared lazy daily reset they both run first: the post-state
is exactly `check_daily_reset`, and on any state with no stale last-reset
date both calls leave every counter and date unchanged. -/
theorem C8_aux_ops_readonly (today : Nat) (ps : Providers) (task : TaskType) :
    (get_quota_status today ps).2 = check_daily_reset today ps
    ∧ (get_recommended_provider today ps task).2 = check_daily_reset today ps
    ∧ ((∀ kv ∈ ps, ¬ kv.2.last_reset < today) →
        (get_quota_status today ps).2 = ps ∧ (get_recommended_provider today ps task).2 = ps) :=
  ⟨rfl, rfl, fun h => ⟨check_daily_reset_noop today ps h, check_daily_reset_noop today ps h⟩⟩

/-- Witness for the amended C8 at a concrete same-date state: both auxiliary
operations leave the state unchanged. -/
theorem C8_aux_ops_readonly_witness :
    (get_quota_status 5
      [("mistral",
        { name := "Mistral AI", endpoint := "m", model := some "mistral-small-latest",
          api_key := some "k", provider_type := .text, priority := 2, rate_limit := none,
          requests_today := 2, last_reset := 5 })]).2
      = [("mistral",
        { name := "Mistral AI", endpoint := "m", model := some "mistral-small-latest",
          api_key := some "k", provider_type := .text, priority := 2, rate_limit := none,
          requests_today := 2, last_reset := 5 })]
    ∧ (get_recommended_provider 5
      [("mistral",
        { name := "Mistral AI", endpoint := "m", model := some "mistral-small-latest",
          api_key := some "k", provider_type := .text, priority := 2, rate_limit := none,
          requests_today := 2, last_reset := 5 })] TaskType.text).2
      = [("mistral",
        { name := "Mistral AI", endpoint := "m", model := some "mistral-small-latest",
          api_key := some "k", provider_type := .text, priority := 2, rate_limit := none,
          requests_today := 2, last_reset := 5 })] :=
  (C8_aux_ops_readonly 5 _ TaskType.text).2.2 (by decide)

theorem pyIntTruthy_some {L : Int} : pyIntTruthy (some L) = true ↔ L ≠ 0 := by
  unfold pyIntTruthy
  simp

/-- Boolean characterization of `_can_use_provider` in the code's own
truthiness terms. -/
theorem can_use_provider_eq_false_iff (ps : Providers) (k : String) :
    can_use_provider ps k = false ↔
      ps.lookup k = none ∨
      ∃ p, ps.lookup k = some p ∧
        (pyStrTruthy p.api_key = false ∨
         (pyIntTruthy p.rate_limit = true ∧ p.rate_limit.getD 0 ≤ p.requests_today)) := by
  unfold can_use_provider
  cases hl : ps.lookup k with
  | none => simp
  | some p =>
    dsimp only
    by_cases hkey : pyStrTruthy p.api_key = false
    · rw [if_pos hkey]
      constructor
      · intro _
        exact Or.inr ⟨p, rfl, Or.inl hkey⟩
      · intro _
        rfl
    · rw [if_neg hkey]
      by_cases hlim : pyIntTruthy p.rate_limit = true
          ∧ p.requests_today ≥ p.rate_limit.getD 0
      · rw [if_pos hlim]
        constructor
        · intro _
          exact Or.inr ⟨p, rfl, Or.inr ⟨hlim.1, hlim.2⟩⟩
        · intro _
          rfl
      · rw [if_neg hlim]
        constructor
        · intro h
          exact Bool.noConfusion h
        · rintro (h | ⟨q, hq, h⟩)
          · exact Option.noConfusion h
          · injection hq with he
            subst he
            rcases h with h | ⟨ht, hge⟩
            · exact absurd h hkey
            · exact absurd ⟨ht, hge⟩ hlim

/-- C3: admissibility is false exactly for an unknown key, an absent (falsy)
credential, or a set daily limit that the consumed count has reached — stated
for states whose set limits are nonzero, which covers every state the
registry can reach (its limits are 1500 and 14400); a provider with no
credential is inadmissible regardless of quota state; and with a credential
and a positive set limit L, the provider is admissible exactly while the
consumed count is below L, becomes inadmissible once it reaches L, and after
a date rollover the lazy reset makes it admissible again with consumed 0. -/
theorem C3_admissibility (ps : Providers) (k : String) :
    ((∀ p, ps.lookup k = some p → p.rate_limit ≠ some 0) →
      (can_use_provider ps k = false ↔
        ps.lookup k = none ∨
        ∃ p, ps.lookup k = some p ∧
          (pyStrTruthy p.api_key = false ∨
           ∃ L, p.rate_limit = some L ∧ L ≤ p.requests_today)))
    ∧ (∀ p, ps.lookup k = some p → pyStrTruthy p.api_key = false →
        can_use_provider ps k = false)
    ∧ (∀ (today : Nat) (p : ProviderConfig) (L : Int),
        ps.lookup k = some p → p.rate_limit = some L → 0 < L →
        pyStrTruthy p.api_key = true →
        ((can_use_provider ps k = true ↔ p.requests_today < L)
         ∧ (p.last_reset < today →
             ∃ q, (check_daily_reset today ps).lookup k = some q ∧ q.requests_today = 0
               ∧ can_use_provider (check_daily_reset today ps) k = true))) := by
  refine ⟨?_, ?_, ?_⟩
  · intro hz
    rw [can_use_provider_eq_false_iff]
    constructor
    · rintro (h | ⟨p, hp, h⟩)
      · exact Or.inl h
      · refine Or.inr ⟨p, hp, ?_⟩
        rcases h with h | ⟨ht, hge⟩
        · exact Or.inl h
        · refine Or.inr ?_
          cases hrl : p.rate_limit with
          | none => rw [hrl] at ht; exact Bool.noConfusion ht
          | some L =>
            refine ⟨L, rfl, ?_⟩
            rw [hrl] at hge
            simpa using hge
    · rintro (h | ⟨p, hp, h⟩)
      · exact Or.inl h
      · refine Or.inr ⟨p, hp, ?_⟩
        rcases h with h | ⟨L, hL, hge⟩
        · exact Or.inl h
        · refine Or.inr ⟨?_, ?_⟩
          · rw [hL]
            exact pyIntTruthy_some.mpr (fun h0 => hz p hp (by rw [hL, h0]))
          · rw [hL]
            simpa using hge
  · intro p hp hkey
    unfold can_use_provider
    rw [hp]
    dsimp only
    rw [if_pos hkey]
  · intro today p L hp hL hpos hkey
    constructor
    · unfold can_use_provider
      rw [hp]
      dsimp only
      rw [if_neg (by rw [hkey]; simp), hL]
      constructor
      · intro h
        by_contra hge
        push_neg at hge
        rw [if_pos ⟨pyIntTruthy_some.mpr (by omega), by simpa using hge⟩] at h
        exact Bool.noConfusion h
      · intro hlt
        rw [if_neg (by rintro ⟨ht, hge⟩; rw [Option.getD_some] at hge; omega)]
    · intro hroll
      refine ⟨{ p with requests_today := 0, last_reset := today }, ?_, rfl, ?_⟩
      · rw [check_daily_reset_lookup, hp]
        simp only [Option.map_some']
        rw [if_pos hroll]
      · unfold can_use_provider
        rw [check_daily_reset_lookup, hp]
        simp only [Option.map_some']
        rw [if_pos hroll]
        dsimp only
        rw [if_neg (by rw [hkey]; simp)]
        rw [hL]
        rw [if_neg (by rintro ⟨ht, hge⟩; rw [Option.getD_some] at hge; omega)]

/-- Witness for C3 at the registry with every credential set: `gemini` with
limit 1500 and consumed 0 is admissible, and stays admissible with a zeroed
counter across a date rollover. -/
theorem C3_admissibility_witness :
    ((can_use_provider (initProviders (fun _ => some "key") 0) "gemini" = true ↔
        (0 : Int) < 1500)
     ∧ ((0 : Nat) < 1 →
         ∃ q, (check_daily_reset 1 (initProviders (fun _ => some "key") 0)).lookup "gemini"
             = some q ∧ q.requests_today = 0
           ∧ can_use_provider (check_daily_reset 1 (initProviders (fun _ => some "key") 0))
               "gemini" = true)) :=
  (C3_admissibility (initProviders (fun _ => some "key") 0) "gemini").2.2 1 _ 1500
    rfl rfl (by decide) rfl

/-- C1: every routing call returns SUCCESS via the first candidate in the
class's fixed order that is both admissible and whose adapter call succeeds
(for vision: that also passes the defensive capability filter), returning
that adapter's result — canonical text, the candidate's provider identity,
and model; the invocation trace stops at that candidate, so no later
candidate in the order is invoked. -/
theorem C1_first_success_wins :
    (∀ (net : Net) (today : Nat) (ps : Providers) (prompt : String) (system : Option String)
       (pre : List String) (c : String) (post : List String) (r : CallResult),
      text_providers = pre ++ c :: post →
      (∀ n ∈ pre, can_use_provider (check_daily_reset today ps) n = false ∨
        ∃ rf, call_text_provider net (check_daily_reset today ps) n prompt system = some rf ∧
          rf.success = false) →
      can_use_provider (check_daily_reset today ps) c = true →
      call_text_provider net (check_daily_reset today ps) c prompt system = some r →
      r.success = true →
      route_text net today ps prompt system = some (r, bump (check_daily_reset today ps) c)
      ∧ r.provider = some c
      ∧ route_text_invoked net today ps prompt system
          = (pre.filter (fun n => can_use_provider (check_daily_reset today ps) n)) ++ [c])
    ∧ (∀ (net : Net) (today : Nat) (ps : Providers) (image_base64 prompt : String)
       (system : Option String) (pre : List String) (c : String) (post : List String)
       (r : CallResult),
      vision_providers = pre ++ c :: post →
      (∀ n ∈ pre, (check_daily_reset today ps).lookup n = none ∨
        (∃ p, (check_daily_reset today ps).lookup n = some p ∧
          ¬ (p.provider_type = .vision ∨ p.provider_type = .both)) ∨
        can_use_provider (check_daily_reset today ps) n = false ∨
        ∃ rf, call_vision_provider net (check_daily_reset today ps) n image_base64 prompt system
            = some rf ∧ rf.success = false) →
      (∃ p, (check_daily_reset today ps).lookup c = some p ∧
        (p.provider_type = .vision ∨ p.provider_type = .both)) →
      can_use_provider (check_daily_reset today ps) c = true →
      call_vision_provider net (check_daily_reset today ps) c image_base64 prompt system
          = some r →
      r.success = true →
      route_vision net today ps image_base64 prompt system
          = some (r, bump (check_daily_reset today ps) c)
      ∧ r.provider = some c
      ∧ route_vision_invoked net today ps image_base64 prompt system
          = (pre.filter (fun n =>
              match (check_daily_reset today ps).lookup n with
              | none => false
              | some p => decide (p.provider_type = .vision ∨ p.provider_type = .both)
                  && can_use_provider (check_daily_reset today ps) n)) ++ [c]) := by
  constructor
  · intro net today ps prompt system pre c post r horder hpre hadm hcall hsucc
    have hgo := route_text_go_first_success net prompt system (check_daily_reset today ps) r
      pre c post hpre hadm hcall hsucc
    have hfst := route_text_go_invoked_fst net prompt system (pre ++ c :: post)
      (check_daily_reset today ps)
    refine ⟨?_, call_text_provider_success hcall hsucc, ?_⟩
    · unfold route_text
      rw [horder, ← hfst, hgo]
    · unfold route_text_invoked
      rw [horder, hgo]
  · intro net today ps image_base64 prompt system pre c post r horder hpre hcap hadm hcall hsucc
    have hgo := route_vision_go_first_success net image_base64 prompt system
      (check_daily_reset today ps) r pre c post hpre hcap hadm hcall hsucc
    have hfst := route_vision_go_invoked_fst net image_base64 prompt system (pre ++ c :: post)
      (check_daily_reset today ps)
    refine ⟨?_, call_vision_provider_success hcall hsucc, ?_⟩
    · unfold route_vision
      rw [horder, ← hfst, hgo]
    · unfold route_vision_invoked
      rw [horder, hgo]

/-- Witness for C1: with every credential set and a transport that answers
every request successfully, `route_text` succeeds via `opencode_zen` (the
first text candidate) and `route_vision` via `gemini` (the first vision
candidate); nothing else is invoked. -/
theorem C1_first_success_wins_witness :
    (route_text c1Net 0 c1Providers "p" none
        = some (c1TextResult, bump (check_daily_reset 0 c1Providers) "opencode_zen")
      ∧ c1TextResult.provider = some "opencode_zen"
      ∧ route_text_invoked c1Net 0 c1Providers "p" none = ["opencode_zen"])
    ∧ (route_vision c1Net 0 c1Providers "img" "p" none
        = some (c1VisionResult, bump (check_daily_reset 0 c1Providers) "gemini")
      ∧ c1VisionResult.provider = some "gemini"
      ∧ route_vision_invoked c1Net 0 c1Providers "img" "p" none = ["gemini"]) := by
  constructor
  · have h := C1_first_success_wins.1 c1Net 0 c1Providers "p" none []
      "opencode_zen" ["mistral", "groq", "huggingface"] c1TextResult rfl
      (fun n hn => absurd hn (List.not_mem_nil n)) (by decide) rfl rfl
    exact ⟨h.1, h.2.1, h.2.2⟩
  · have h := C1_first_success_wins.2 c1Net 0 c1Providers "img" "p" none []
      "gemini" ["groq"] c1VisionResult rfl
      (fun n hn => absurd hn (List.not_mem_nil n))
      ⟨_, rfl, Or.inl rfl⟩ (by decide) rfl rfl
    exact ⟨h.1, h.2.1, h.2.2⟩

/-- C2: within one routing call, no provider that was skipped or whose
adapter failed has its counter incremented: on a failure outcome the
post-state is exactly the lazily-reset pre-state; on SUCCESS the serving
provider — the one named in the result — was admissible, produced the
result, and the post-state increments exactly its counter by 1, every other
entry being unchanged beyond the lazy date reset. -/
theorem C2_quota_frame :
    (∀ (net : Net) (today : Nat) (ps : Providers) (prompt : String) (system : Option String)
       (r : CallResult) (ps2 : Providers),
      route_text net today ps prompt system = some (r, ps2) →
      (r.success = false → ps2 = check_daily_reset today ps)
      ∧ (r.success = true →
          ∃ n, n ∈ text_providers ∧ r.provider = some n
            ∧ can_use_provider (check_daily_reset today ps) n = true
            ∧ call_text_provider net (check_daily_reset today ps) n prompt system = some r
            ∧ ps2 = bump (check_daily_reset today ps) n
            ∧ ∀ k, ps2.lookup k = ((check_daily_reset today ps).lookup k).map
                (fun p => if k = n then { p with requests_today := p.requests_today + 1 }
                          else p)))
    ∧ (∀ (net : Net) (today : Nat) (ps : Providers) (image_base64 prompt : String)
       (system : Option String) (r : CallResult) (ps2 : Providers),
      route_vision net today ps image_base64 prompt system = some (r, ps2) →
      (r.success = false → ps2 = check_daily_reset today ps)
      ∧ (r.success = true →
          ∃ n, n ∈ vision_providers ∧ r.provider = some n
            ∧ can_use_provider (check_daily_reset today ps) n = true
            ∧ call_vision_provider net (check_daily_reset today ps) n image_base64 prompt system
                = some r
            ∧ ps2 = bump (check_daily_reset today ps) n
            ∧ ∀ k, ps2.lookup k = ((check_daily_reset today ps).lookup k).map
                (fun p => if k = n then { p with requests_today := p.requests_today + 1 }
                          else p))) := by
  constructor
  · intro net today ps prompt system r ps2 h
    rcases route_text_go_cases net prompt system text_providers (check_daily_reset today ps)
        r ps2 h with ⟨hs, n, hn, hcan, hcall, hb⟩ | ⟨hr, hps⟩
    · constructor
      · intro hfalse
        rw [hfalse] at hs
        exact Bool.noConfusion hs
      · intro _
        refine ⟨n, hn, call_text_provider_success hcall hs, hcan, hcall, hb, ?_⟩
        intro k
        rw [hb]
        exact bump_lookup (check_daily_reset today ps) n k
    · constructor
      · intro _
        exact hps
      · intro htrue
        rw [hr] at htrue
        exact Bool.noConfusion htrue
  · intro net today ps image_base64 prompt system r ps2 h
    rcases route_vision_go_cases net image_base64 prompt system vision_providers
        (check_daily_reset today ps) r ps2 h with ⟨hs, n, hn, hcan, hcall, hb⟩ | ⟨hr, hps⟩
    · constructor
      · intro hfalse
        rw [hfalse] at hs
        exact Bool.noConfusion hs
      · intro _
        refine ⟨n, hn, call_vision_provider_success hcall hs, hcan, hcall, hb, ?_⟩
        intro k
        rw [hb]
        exact bump_lookup (check_daily_reset today ps) n k
    · constructor
      · intro _
        exact hps
      · intro htrue
        rw [hr] at htrue
        exact Bool.noConfusion htrue

/-- Witness for C2 on a one-provider state: the SUCCESS branch names
`mistral` as the serving provider and increments exactly its counter. -/
theorem C2_quota_frame_witness :
    ∃ n, n ∈ text_providers ∧ c2Result.provider = some n
      ∧ can_use_provider (check_daily_reset 0 c2State) n = true
      ∧ call_text_provider c2Net (check_daily_reset 0 c2State) n "p" none = some c2Result
      ∧ bump (check_daily_reset 0 c2State) "mistral" = bump (check_daily_reset 0 c2State) n
      ∧ ∀ k, (bump (check_daily_reset 0 c2State) "mistral").lookup k
          = ((check_daily_reset 0 c2State).lookup k).map
              (fun p => if k = n then { p with requests_today := p.requests_today + 1 }
                        else p) :=
  ((C2_quota_frame.1 c2Net 0 c2State "p" none c2Result
      (bump (check_daily_reset 0 c2State) "mistral") rfl).2 rfl)

/-- C5: when every candidate in the class order is inadmissible or has a
failing adapter call (for vision also: missing or capability-mismatched), the
call returns the EXHAUSTED outcome: success false, the aggregate
"all ... failed or exhausted" message, no provider identity, and the state is
only the lazy reset — no partial result. -/
theorem C5_exhausted :
    (∀ (net : Net) (today : Nat) (ps : Providers) (prompt : String) (system : Option String),
      (∀ n ∈ text_providers, can_use_provider (check_daily_reset today ps) n = false ∨
        ∃ rf, call_text_provider net (check_daily_reset today ps) n prompt system = some rf ∧
          rf.success = false) →
      route_text net today ps prompt system
        = some ({ success := false, error := some "All text providers failed or exhausted",
                  provider := none }, check_daily_reset today ps))
    ∧ (∀ (net : Net) (today : Nat) (ps : Providers) (image_base64 prompt : String)
       (system : Option String),
      (∀ n ∈ vision_providers, (check_daily_reset today ps).lookup n = none ∨
        (∃ p, (check_daily_reset today ps).lookup n = some p ∧
          ¬ (p.provider_type = .vision ∨ p.provider_type = .both)) ∨
        can_use_provider (check_daily_reset today ps) n = false ∨
        ∃ rf, call_vision_provider net (check_daily_reset today ps) n image_base64 prompt system
            = some rf ∧ rf.success = false) →
      route_vision net today ps image_base64 prompt system
        = some ({ success := false, error := some "All vision providers failed or exhausted",
                  provider := none }, check_daily_reset today ps)) :=
  ⟨fun net today ps prompt system h =>
     route_text_go_exhausted net prompt system text_providers (check_daily_reset today ps) h,
   fun net today ps image_base64 prompt system h =>
     route_vision_go_exhausted net image_base64 prompt system vision_providers
       (check_daily_reset today ps) h⟩

/-- Witness for C5: with no credential configured anywhere, every candidate
is inadmissible and both calls return the EXHAUSTED outcome. -/
theorem C5_exhausted_witness :
    route_text (fun _ => HttpOutcome.err "net down") 0 (initProviders (fun _ => none) 0) "p" none
      = some ({ success := false, error := some "All text providers failed or exhausted",
                provider := none }, check_daily_reset 0 (initProviders (fun _ => none) 0)) := by
  refine C5_exhausted.1 (fun _ => HttpOutcome.err "net down") 0
    (initProviders (fun _ => none) 0) "p" none ?_
  intro n hn
  left
  simp only [text_providers, List.mem_cons, List.not_mem_nil, or_false] at hn
  rcases hn with rfl | rfl | rfl | rfl <;> rfl

/-! ## Fault containment of the adapters -/

theorem call_opencode_zen_faulty {net : Net} {p : ProviderConfig} {prompt : String}
    {system : Option String}
    (hf : faulty (net (opencode_zen_request p prompt system)) chat_extract) :
    ∃ msg, call_opencode_zen net p prompt system = .error msg := by
  unfold call_opencode_zen
  cases hno : net (opencode_zen_request p prompt system) with
  | err e => exact ⟨e, rfl⟩
  | resp status body =>
    rw [hno] at hf
    dsimp only [faulty] at hf
    dsimp only
    by_cases hst : is_status_ok status = false
    · exact ⟨"HTTP status " ++ toString status, by rw [if_pos hst]⟩
    · rcases hf with hbad | hmiss
      · exact absurd hbad hst
      · exact ⟨"missing field in response", by rw [if_neg hst, hmiss]⟩

theorem call_mistral_faulty {net : Net} {p : ProviderConfig} {prompt : String}
    {system : Option String}
    (hf : faulty (net (mistral_request p prompt system)) chat_extract) :
    ∃ msg, call_mistral net p prompt system = .error msg := by
  unfold call_mistral
  cases hno : net (mistral_request p prompt system) with
  | err e => exact ⟨e, rfl⟩
  | resp status body =>
    rw [hno] at hf
    dsimp only [faulty] at hf
    dsimp only
    by_cases hst : is_status_ok status = false
    · exact ⟨"HTTP status " ++ toString status, by rw [if_pos hst]⟩
    · rcases hf with hbad | hmiss
      · exact absurd hbad hst
      · exact ⟨"missing field in response", by rw [if_neg hst, hmiss]⟩

theorem call_groq_text_faulty {net : Net} {p : ProviderConfig} {prompt : String}
    {system : Option String}
    (hf : faulty (net (groq_text_request p prompt system)) chat_extract) :
    ∃ msg, call_groq_text net p prompt system = .error msg := by
  unfold call_groq_text
  cases hno : net (groq_text_request p prompt system) with
  | err e => exact ⟨e, rfl⟩
  | resp status body =>
    rw [hno] at hf
    dsimp only [faulty] at hf
    dsimp only
    by_cases hst : is_status_ok status = false
    · exact ⟨"HTTP status " ++ toString status, by rw [if_pos hst]⟩
    · rcases hf with hbad | hmiss
      · exact absurd hbad hst
      · exact ⟨"missing field in response", by rw [if_neg hst, hmiss]⟩

theorem call_huggingface_faulty {net : Net} {p : ProviderConfig} {prompt : String}
    {system : Option String}
    (hf : faulty (net (huggingface_request p prompt system)) hf_extract) :
    ∃ msg, call_huggingface net p prompt system = .error msg := by
  unfold call_huggingface
  cases hno : net (huggingface_request p prompt system) with
  | err e => exact ⟨e, rfl⟩
  | resp status body =>
    rw [hno] at hf
    dsimp only [faulty] at hf
    dsimp only
    by_cases hst : is_status_ok status = false
    · exact ⟨"HTTP status " ++ toString status, by rw [if_pos hst]⟩
    · rcases hf with hbad | hmiss
      · exact absurd hbad hst
      · exact ⟨"unexpected response shape", by rw [if_neg hst, hmiss]⟩

theorem call_gemini_vision_faulty {net : Net} {p : ProviderConfig} {image_base64 prompt : String}
    {system : Option String}
    (hf : faulty (net (gemini_vision_request p image_base64 prompt system)) gemini_extract) :
    ∃ msg, call_gemini_vision net p image_base64 prompt system = .error msg := by
  unfold call_gemini_vision
  cases hno : net (gemini_vision_request p image_base64 prompt system) with
  | err e => exact ⟨e, rfl⟩
  | resp status body =>
    rw [hno] at hf
    dsimp only [faulty] at hf
    dsimp only
    by_cases hst : is_status_ok status = false
    · exact ⟨"HTTP status " ++ toString status, by rw [if_pos hst]⟩
    · rcases hf with hbad | hmiss
      · exact absurd hbad hst
      · exact ⟨"missing field in response", by rw [if_neg hst, hmiss]⟩

theorem call_groq_vision_faulty {net : Net} {p : ProviderConfig} {image_base64 prompt : String}
    {system : Option String}
    (hf : faulty (net (groq_vision_request p image_base64 prompt system)) chat_extract) :
    ∃ msg, call_groq_vision net p image_base64 prompt system = .error msg := by
  unfold call_groq_vision
  cases hno : net (groq_vision_request p image_base64 prompt system) with
  | err e => exact ⟨e, rfl⟩
  | resp status body =>
    rw [hno] at hf
    dsimp only [faulty] at hf
    dsimp only
    by_cases hst : is_status_ok status = false
    · exact ⟨"HTTP status " ++ toString status, by rw [if_pos hst]⟩
    · rcases hf with hbad | hmiss
      · exact absurd hbad hst
      · exact ⟨"missing field in response", by rw [if_neg hst, hmiss]⟩

/-- C6 counterexample: the HuggingFace text adapter, given a 2xx JSON-object
response whose body LACKS the expected `generated_text` field, returns a
SUCCESS result with an empty string (Python `data.get("generated_text", "")`
defaults instead of raising), contradicting "missing expected text field ⇒
failure result, never success". -/
theorem C6_counterexample :
    Json.getKey (Json.jobj []) "generated_text" = none
    ∧ call_text_provider (fun _ => HttpOutcome.resp 200 (Json.jobj []))
        [("huggingface",
          { name := "HuggingFace Inference", endpoint := "h", model := none,
            api_key := some "k", provider_type := .text, priority := 3, rate_limit := none,
            requests_today := 0, last_reset := 0 })]
        "huggingface" "p" none
      = some { success := true, response := some (Json.jstr ""),
               provider := some "huggingface", model := some "Mistral-7B-Instruct" } :=
  ⟨rfl, rfl⟩

/-- C6 (amended): every adapter invocation on a faulted transport outcome —
a transport error, a non-2xx status, or a body on which the adapter's
extraction fails (for HuggingFace the extraction follows the code's
defaulting: a 2xx object body missing `generated_text` yields success with an
empty string and is excluded) — returns a failure result carrying the
provider identity and a diagnostic message, and never escapes to the router. -/
theorem C6_adapter_fault_containment :
    (∀ (net : Net) (ps : Providers) (p : ProviderConfig) (prompt : String)
       (system : Option String),
      ps.lookup "opencode_zen" = some p →
      faulty (net (opencode_zen_request p prompt system)) chat_extract →
      ∃ msg, call_text_provider net ps "opencode_zen" prompt system
        = some { success := false, error := some msg, provider := some "opencode_zen" })
    ∧ (∀ (net : Net) (ps : Providers) (p : ProviderConfig) (prompt : String)
       (system : Option String),
      ps.lookup "mistral" = some p →
      faulty (net (mistral_request p prompt system)) chat_extract →
      ∃ msg, call_text_provider net ps "mistral" prompt system
        = some { success := false, error := some msg, provider := some "mistral" })
    ∧ (∀ (net : Net) (ps : Providers) (p : ProviderConfig) (prompt : String)
       (system : Option String),
      ps.lookup "groq" = some p →
      faulty (net (groq_text_request p prompt system)) chat_extract →
      ∃ msg, call_text_provider net ps "groq" prompt system
        = some { success := false, error := some msg, provider := some "groq" })
    ∧ (∀ (net : Net) (ps : Providers) (p : ProviderConfig) (prompt : String)
       (system : Option String),
      ps.lookup "huggingface" = some p →
      faulty (net (huggingface_request p prompt system)) hf_extract →
      ∃ msg, call_text_provider net ps "huggingface" prompt system
        = some { success := false, error := some msg, provider := some "huggingface" })
    ∧ (∀ (net : Net) (ps : Providers) (p : ProviderConfig) (image_base64 prompt : String)
       (system : Option String),
      ps.lookup "gemini" = some p →
      faulty (net (gemini_vision_request p image_base64 prompt system)) gemini_extract →
      ∃ msg, call_vision_provider net ps "gemini" image_base64 prompt system
        = some { success := false, error := some msg, provider := some "gemini" })
    ∧ (∀ (net : Net) (ps : Providers) (p : ProviderConfig) (image_base64 prompt : String)
       (system : Option String),
      ps.lookup "groq" = some p →
      faulty (net (groq_vision_request p image_base64 prompt system)) chat_extract →
      ∃ msg, call_vision_provider net ps "groq" image_base64 prompt system
        = some { success := false, error := some msg, provider := some "groq" }) := by
  refine ⟨?_, ?_, ?_, ?_, ?_, ?_⟩
  · intro net ps p prompt system hl hf
    obtain ⟨msg, hmsg⟩ := call_opencode_zen_faulty hf
    refine ⟨msg, ?_⟩
    unfold call_text_provider
    rw [hl]
    dsimp only
    unfold dispatch_text
    rw [if_pos rfl, hmsg]
  · intro net ps p prompt system hl hf
    obtain ⟨msg, hmsg⟩ := call_mistral_faulty hf
    refine ⟨msg, ?_⟩
    unfold call_text_provider
    rw [hl]
    dsimp only
    unfold dispatch_text
    rw [if_neg (by decide), if_pos rfl, hmsg]
  · intro net ps p prompt system hl hf
    obtain ⟨msg, hmsg⟩ := call_groq_text_faulty hf
    refine ⟨msg, ?_⟩
    unfold call_text_provider
    rw [hl]
    dsimp only
    unfold dispatch_text
    rw [if_neg (by decide), if_neg (by decide), if_pos rfl, hmsg]
  · intro net ps p prompt system hl hf
    obtain ⟨msg, hmsg⟩ := call_huggingface_faulty hf
    refine ⟨msg, ?_⟩
    unfold call_text_provider
    rw [hl]
    dsimp only
    unfold dispatch_text
    rw [if_neg (by decide), if_neg (by decide), if_neg (by decide), if_pos rfl, hmsg]
  · intro net ps p image_base64 prompt system hl hf
    obtain ⟨msg, hmsg⟩ := call_gemini_vision_faulty hf
    refine ⟨msg, ?_⟩
    unfold call_vision_provider
    rw [hl]
    dsimp only
    unfold dispatch_vision
    rw [if_pos rfl, hmsg]
  · intro net ps p image_base64 prompt system hl hf
    obtain ⟨msg, hmsg⟩ := call_groq_vision_faulty hf
    refine ⟨msg, ?_⟩
    unfold call_vision_provider
    rw [hl]
    dsimp only
    unfold dispatch_vision
    rw [if_neg (by decide), if_pos rfl, hmsg]

/-- Witness for the amended C6: a transport error on the first text provider
is converted to a failure result carrying its identity. -/
theorem C6_adapter_fault_containment_witness :
    ∃ msg, call_text_provider (fun _ => HttpOutcome.err "connection refused")
      [("opencode_zen",
        { name := "OpenCode Zen (grok-code)", endpoint := "o", model := some "grok-code",
          api_key := some "k", provider_type := .text, priority := 1, rate_limit := none,
          requests_today := 0, last_reset := 0 })]
      "opencode_zen" "p" none
      = some { success := false, error := some msg, provider := some "opencode_zen" } :=
  C6_adapter_fault_containment.1 (fun _ => HttpOutcome.err "connection refused") _ _ "p" none
    rfl trivial

/-- C9: the `priority` field is not a behavioural input.  For any
reassignment of every provider's priority, `route_text`, `route_vision`,
`get_recommended_provider` and `get_quota_status` produce identical results,
and the state changes are identical up to the same priority reassignment —
trial order is the explicit per-class candidate list, never a sort by
priority. -/
theorem C9_priority_not_behavioural (f : String → Int) (net : Net) (today : Nat)
    (ps : Providers) (prompt image_base64 : String) (system : Option String) (task : TaskType) :
    route_text net today (setPriorities f ps) prompt system
      = (route_text net today ps prompt system).map (fun x => (x.1, setPriorities f x.2))
    ∧ route_vision net today (setPriorities f ps) image_base64 prompt system
      = (route_vision net today ps image_base64 prompt system).map
          (fun x => (x.1, setPriorities f x.2))
    ∧ (get_recommended_provider today (setPriorities f ps) task).1
        = (get_recommended_provider today ps task).1
    ∧ (get_recommended_provider today (setPriorities f ps) task).2
        = setPriorities f (get_recommended_provider today ps task).2
    ∧ (get_quota_status today (setPriorities f ps)).1 = (get_quota_status today ps).1
    ∧ (get_quota_status today (setPriorities f ps)).2
        = setPriorities f (get_quota_status today ps).2 := by
  refine ⟨?_, ?_, ?_, ?_, ?_, ?_⟩
  · unfold route_text
    rw [check_daily_reset_setPriorities]
    exact route_text_go_setPriorities f net prompt system text_providers _
  · unfold route_vision
    rw [check_daily_reset_setPriorities]
    exact route_vision_go_setPriorities f net image_base64 prompt system vision_providers _
  · show get_recommended_go (check_daily_reset today (setPriorities f ps)) task _
      = get_recommended_go (check_daily_reset today ps) task _
    rw [check_daily_reset_setPriorities]
    exact get_recommended_go_setPriorities f _ task _
  · show check_daily_reset today (setPriorities f ps)
      = setPriorities f (check_daily_reset today ps)
    exact check_daily_reset_setPriorities today f ps
  · show (check_daily_reset today (setPriorities f ps)).map _
      = (check_daily_reset today ps).map _
    rw [check_daily_reset_setPriorities]
    exact quota_rows_setPriorities f _
  · show check_daily_reset today (setPriorities f ps)
      = setPriorities f (check_daily_reset today ps)
    exact check_daily_reset_setPriorities today f ps

/-- C10: on any state satisfying the quota invariant — every provider with a
positive set limit has consumed at most that limit, which covers any start at
or below the limit — every sequential interleaving of `route_text`,
`route_vision`, `get_quota_status` and `get_recommended_provider` preserves
the invariant (the counter never exceeds the limit), and the `remaining`
value `get_quota_status` reports for such a provider is never negative. -/
theorem C10_limit_never_exceeded :
    (∀ (ops : List Op) (ps : Providers), quotaOK ps → quotaOK (runOps ps ops))
    ∧ (∀ (today : Nat) (ps : Providers) (k : String) (e : QuotaEntry),
        quotaOK ps → ((get_quota_status today ps).1).lookup k = some e →
        ∀ L, e.rate_limit = some L → 0 < L → ∀ rem, e.remaining = some rem → 0 ≤ rem) := by
  constructor
  · exact quotaOK_runOps
  · intro today ps k e hq hlook L hL hpos rem hrem
    rw [get_quota_status_rows] at hlook
    cases hl : (check_daily_reset today ps).lookup k with
    | none => rw [hl] at hlook; exact Option.noConfusion hlook
    | some p =>
      rw [hl] at hlook
      simp only [Option.map_some'] at hlook
      injection hlook with he
      subst he
      unfold quota_entry at hL hrem
      dsimp only at hL hrem
      have hple := quotaOK_check_daily_reset today hq k p hl L hL hpos
      rw [hL] at hrem
      rw [if_pos (pyIntTruthy_some.mpr (by omega))] at hrem
      injection hrem with he2
      simp only [Option.getD_some] at he2
      omega

/-- Witness for C10: the fully-credentialed registry satisfies the invariant,
and it is preserved across a concrete interleaving of all four operations. -/
theorem C10_limit_never_exceeded_witness :
    quotaOK (runOps (initProviders (fun _ => some "key") 0)
      [Op.text (fun _ => HttpOutcome.err "down") 0 "p" none,
       Op.status 0,
       Op.vision (fun _ => HttpOutcome.err "down") 1 "img" "p" none,
       Op.recommend 1 TaskType.vision]) :=
  C10_limit_never_exceeded.1 _ _ (quotaOK_of_quotaOKb (by decide))

end AIRouter
